import Mathlib

/-!
Verification development for the Warzone 2100 projectile subsystem
(`src/projectile.cpp`).

The definitions below are a shallow embedding of the C++ source into Lean:
  * machine integers are modelled as unbounded `Int`/`Nat`; C integer
    division (truncation toward zero) is modelled by `Int.tdiv`;
  * conversions to unsigned types are modelled by explicit `% 2^w` where
    the source performs them;
  * external collaborators (trigonometry tables, the spatial grid, the
    terrain oracle, per-kind damage handlers, the random number
    generator, ...) are modelled as explicit function parameters carried
    in a `World` record, mirroring the interface contracts of the spec;
  * all definitions are executable so that concrete runs of the embedded
    code can be checked by `decide`.
-/

/-! ## Integer square root (fuel-based bisection, kernel-reducible)

The source uses `iSqrt : uint32 -> uint32` and `i64Sqrt : uint64 -> uint32`
from the framework library (not under `src/`); both compute the integer
square root rounded down.  `Nat.sqrt` is defined by well-founded recursion
and does not reduce in the kernel, so we use a structurally recursive
bisection with 64 steps of fuel (enough for any value below `2^64`). -/

set_option maxRecDepth 1000000

def sqrtBisect (n : Nat) : Nat → Nat → Nat → Nat
  | 0, lo, _ => lo
  | fuel + 1, lo, hi =>
    if hi ≤ lo + 1 then lo
    else if ((lo + hi) / 2) * ((lo + hi) / 2) ≤ n then
      sqrtBisect n fuel ((lo + hi) / 2) hi
    else sqrtBisect n fuel lo ((lo + hi) / 2)

def natSqrt (n : Nat) : Nat := sqrtBisect n 64 0 (n + 1)

/-- `i64Sqrt` from the framework library: integer square root of a
`uint64`, rounded down.  A signed value passed at a call site is first
converted to `uint64`, i.e. taken modulo `2^64`; we model that conversion
explicitly. -/
def i64Sqrt (n : Int) : Int := Int.ofNat (natSqrt ((n % (2 ^ 64 : Int)).toNat))

/-- `iSqrt` from the framework library: integer square root of a
`uint32`, rounded down; the argument is converted to `uint32`
(modulo `2^32`). -/
def iSqrt (n : Int) : Int := Int.ofNat (natSqrt ((n % (2 ^ 32 : Int)).toNat))

/-- `iHypot` on a 2D vector: `i64Sqrt(x*x + y*y)` (framework library,
integer hypotenuse rounded down). -/
def iHypot2 (x y : Int) : Int := i64Sqrt (x * x + y * y)

/-! ## Game constants

`GAME_TICKS_PER_SEC` comes from the game-time header and `ACC_GRAVITY`
from `projectile.h`; neither header is under `src/`.  Modelled from the
spec: flight times are in game ticks (1000 per second) and the
`STATIC_ASSERT` in `projCalcIndirectVelocities` pins
`GAME_TICKS_PER_SEC / ACC_GRAVITY * ACC_GRAVITY == GAME_TICKS_PER_SEC`;
the upstream values are 1000 and 1000. -/

def GAME_TICKS_PER_SEC : Int := 1000

def ACC_GRAVITY : Int := 1000

/-! ## The ballistic trajectory solver (`projCalcIndirectVelocities`)

`gameRand(10001)` produces a uniform draw in `[0,10000]`; the draw is
passed in explicitly as `r`.  The trigonometric table functions `iAtan2`,
`iSin`, `iCos` live in the framework library (not under `src/`) and are
passed in as function parameters. -/

/-- `randomVariation` (projectile.cpp line 389): scales `val` by
`(95000 + r) / 100000` where `r = gameRand(10001)`, i.e. up to ±5 %
variation of `val`. -/
def randomVariation (val : Int) (r : Nat) : Int :=
  Int.tdiv (val * (95000 + (r : Int))) 100000

/-- First stage of `projCalcIndirectVelocities` (lines 404-418): solve
`dz = -1/2 g t² + vz t`, `dx = vx t`, `v² = vx² + vz²`, increasing `v`
when the discriminant is negative, and return the unadjusted
`(vx, vz, t)`. -/
def projCalcStage1 (r : Nat) (dx dz v : Int) : Int × Int × Int :=
  let g := ACC_GRAVITY
  let a0 := randomVariation (v * v) r - dz * g
  let b := g * g * (dx * dx + dz * dz)
  let c0 := a0 * a0 - b
  let a := if c0 < 0 then i64Sqrt b + 1 else a0
  let c := if c0 < 0 then a * a - b else c0
  let t := max 1 (iSqrt (2 * (a - i64Sqrt c)) * Int.tdiv GAME_TICKS_PER_SEC g)
  let vx := Int.tdiv (dx * GAME_TICKS_PER_SEC) t
  let vz := Int.tdiv (dz * GAME_TICKS_PER_SEC) t +
    Int.tdiv (g * t) (2 * GAME_TICKS_PER_SEC)
  (vx, vz, t)

/-- Second stage (lines 422-428): if `vz < 0`, refuse to shoot downwards;
reduce the flight time and let gravity complete the arc.  On this branch
`dz < 0` necessarily holds, so the source's `uint64` arithmetic agrees
with plain integer arithmetic. -/
def projCalcStage2 (dx dz : Int) (s1 : Int × Int × Int) : Int × Int × Int :=
  let g := ACC_GRAVITY
  if s1.2.1 < 0 then
    let t := max 1 (i64Sqrt (Int.tdiv
      (-2 * dz * GAME_TICKS_PER_SEC * GAME_TICKS_PER_SEC) g))
    (Int.tdiv (dx * GAME_TICKS_PER_SEC) t, 0, t)
  else s1

/-- `projCalcIndirectVelocities` (projectile.cpp lines 395-443).  Returns
`(vx, vz, t)`: the solved velocity components (written through the `vx`,
`vz` out-parameters in the source) together with the flight time in
ticks. -/
def projCalcIndirectVelocities (atan2F : Int → Int → Int) (iSinF iCosF : Int → Int)
    (r : Nat) (dx dz v min_angle : Int) : Int × Int × Int :=
  let g := ACC_GRAVITY
  let s2 := projCalcStage2 dx dz (projCalcStage1 r dx dz v)
  if atan2F s2.2.1 s2.1 < min_angle then
    let mytan := Int.tdiv (iSinF min_angle * 65536) (iCosF min_angle)
    let t := max 1 (i64Sqrt (Int.tdiv
      (2 * (dx * mytan - dz * 65536) * GAME_TICKS_PER_SEC * GAME_TICKS_PER_SEC)
      (g * 65536)))
    let vx := Int.tdiv (dx * GAME_TICKS_PER_SEC) t
    (vx, Int.tdiv (mytan * vx) 65536, t)
  else s2

/-! ## Theorems for claims C3 and C4 (trajectory solver) -/

def oracleZero2 : Int → Int → Int := fun _ _ => 0

def oracleZero1 : Int → Int := fun _ => 0

def oracleOne1 : Int → Int := fun _ => 1

/-! ## Collision geometry (claim C5) -/

/-- `INTERVAL` (projectile.cpp line 77): a sub-tick time interval; time 1
is 0 and time 2 is 1024.  `lo`/`hi` model the source's `begin`/`end`
fields (`end` is a reserved word in Lean).  The interval is empty when
`lo >= hi`. -/
structure INTERVAL where
  lo : Int
  hi : Int
deriving DecidableEq

def intervalIntersection (i1 i2 : INTERVAL) : INTERVAL :=
  ⟨max i1.lo i2.lo, min i1.hi i2.hi⟩

def intervalEmpty (i : INTERVAL) : Prop := i.lo ≥ i.hi

instance (i : INTERVAL) : Decidable (intervalEmpty i) := by
  unfold intervalEmpty
  infer_instance

/-- Body of `collisionZ` after the initial sign flip has ensured
`w1 ≤ w2`. -/
def collisionZsorted (w1 w2 height : Int) : INTERVAL :=
  if w1 > height ∨ w2 < -height then ⟨-1, -1⟩
  else if w1 = w2 then
    (if w1 ≥ -height ∧ w1 ≤ height then ⟨0, 1024⟩ else ⟨-1, -1⟩)
  else
    ⟨Int.tdiv (1024 * (-height - w1)) (w2 - w1),
     Int.tdiv (1024 * (height - w1)) (w2 - w1)⟩

/-- `collisionZ` (lines 658-685): the interval of normalized times in
which a coordinate moving linearly from `z1` to `z2` lies within
`[-height, height]`.  If `z1 > z2` both are negated first. -/
def collisionZ (z1 z2 height : Int) : INTERVAL :=
  if z1 > z2 then collisionZsorted (-z1) (-z2) height
  else collisionZsorted z1 z2 height

/-- Quadratic-solution part of `collisionXY`, with the source's local
variables `a = (v2-v1)²`, `b = v1·(v2-v1)`, `c = v1²-r²` and
`d = b²-a·c` passed in explicitly. -/
def collisionXYq (a b c d : Int) : INTERVAL :=
  if d < 0 then ⟨-1, -1⟩
  else if a = 0 then (if c < 0 then ⟨0, 1024⟩ else ⟨-1, -1⟩)
  else
    ⟨max 0 (Int.tdiv (1024 * (-b - i64Sqrt d)) a),
     min 1024 (Int.tdiv (1024 * (-b + i64Sqrt d)) a)⟩

/-- `collisionXY` (lines 687-713): solve the quadratic for the times at
which the point moving from `(x1,y1)` to `(x2,y2)` is within `radius` of
the origin. -/
def collisionXY (x1 y1 x2 y2 radius : Int) : INTERVAL :=
  collisionXYq ((x2 - x1) * (x2 - x1) + (y2 - y1) * (y2 - y1))
    (x1 * (x2 - x1) + y1 * (y2 - y1))
    (x1 * x1 + y1 * y1 - radius * radius)
    ((x1 * (x2 - x1) + y1 * (y2 - y1)) * (x1 * (x2 - x1) + y1 * (y2 - y1)) -
     ((x2 - x1) * (x2 - x1) + (y2 - y1) * (y2 - y1)) *
       (x1 * x1 + y1 * y1 - radius * radius))

/-- `ObjectShape` (projectile.h, reconstructed from its uses in
projectile.cpp): an axis-aligned box (`isRectangular`, half-sizes
`sx`, `sy`) or a circle whose radius is the `x` half-size. -/
structure ObjectShape where
  isRectangular : Bool
  sx : Int
  sy : Int
deriving DecidableEq

def ObjectShape.radius (s : ObjectShape) : Int := s.sx

/-- `Vector3i`: integer 3D vector from the framework library. -/
structure Vector3i where
  x : Int
  y : Int
  z : Int
deriving DecidableEq

/-- Final step of `collisionXYZ`: return `MAX(0, i.begin)` when the
accumulated interval is nonempty, -1 otherwise. -/
def collisionXYZfinal (i2 : INTERVAL) : Int :=
  if ¬ intervalEmpty i2 then max 0 i2.lo else -1

/-- Rectangular-shape branch of `collisionXYZ`: intersect with the `x`
interval, and with the `y` interval only if that is still nonempty. -/
def collisionXYZrect (i : INTERVAL) (v1 v2 : Vector3i) (shape : ObjectShape) : INTERVAL :=
  if ¬ intervalEmpty (intervalIntersection i (collisionZ v1.x v2.x shape.sx)) then
    intervalIntersection (intervalIntersection i (collisionZ v1.x v2.x shape.sx))
      (collisionZ v1.y v2.y shape.sy)
  else intervalIntersection i (collisionZ v1.x v2.x shape.sx)

/-- `collisionXYZ` (lines 715-739): normalized time of impact in the
current tick (1024 = one full tick), or -1 for no collision.  `v1`/`v2`
are the previous/current positions of the projectile relative to the
target. -/
def collisionXYZ (v1 v2 : Vector3i) (shape : ObjectShape) (height : Int) : Int :=
  if ¬ intervalEmpty (collisionZ v1.z v2.z height) then
    collisionXYZfinal
      (if shape.isRectangular then
        collisionXYZrect (collisionZ v1.z v2.z height) v1 v2 shape
      else
        intervalIntersection (collisionZ v1.z v2.z height)
          (collisionXY v1.x v1.y v2.x v2.y shape.radius))
  else -1

/-! ## Data model

`BASE_OBJECT`, `PROJECTILE`, `WEAPON_STATS` and the external collaborators
(spatial grid, terrain oracle, trig tables, random draws, per-kind damage
handlers) are modelled below.  Fields of game objects that the source
derives from data not present under `src/` (graphics models, propulsion
stats, movement state) are carried as per-object data, mirroring the
interface contracts in the spec. -/

instance : Add Vector3i := ⟨fun a b => ⟨a.x + b.x, a.y + b.y, a.z + b.z⟩⟩

instance : Sub Vector3i := ⟨fun a b => ⟨a.x - b.x, a.y - b.y, a.z - b.z⟩⟩

/-- Componentwise `Vector3i * int` (C++ `operator*`). -/
def v3scale (v : Vector3i) (a : Int) : Vector3i := ⟨v.x * a, v.y * a, v.z * a⟩

/-- Componentwise `Vector3i * int / int` with C truncated division. -/
def v3scaleDiv (v : Vector3i) (a b : Int) : Vector3i :=
  ⟨Int.tdiv (v.x * a) b, Int.tdiv (v.y * a) b, Int.tdiv (v.z * a) b⟩

/-- `iHypot` of a 3D vector: `i64Sqrt(x² + y² + z²)` (framework library). -/
def iHypot3 (v : Vector3i) : Int := i64Sqrt (v.x * v.x + v.y * v.y + v.z * v.z)

/-- `Vector3i_InSphere` (framework library, modelled from the spec's
"within a radius" contract): squared distance at most `radius²`. -/
def Vector3i_InSphere (v c : Vector3i) (r : Int) : Prop :=
  (v.x - c.x) * (v.x - c.x) + (v.y - c.y) * (v.y - c.y) +
    (v.z - c.z) * (v.z - c.z) ≤ r * r

instance (v c : Vector3i) (r : Int) : Decidable (Vector3i_InSphere v c r) := by
  unfold Vector3i_InSphere
  infer_instance

/-- `clip` from the framework library: clamp `x` into `[lo, hi]`. -/
def clipInt (x lo hi : Int) : Int := min (max x lo) hi

/-- `TILE_UNITS` (map header, not under `src/`): world units per map
tile; 128 upstream. -/
def TILE_UNITS : Int := 128

/-- `PROJ_NEIGHBOUR_RANGE` (projectile.cpp line 97): `TILE_UNITS*4`. -/
def PROJ_NEIGHBOUR_RANGE : Int := TILE_UNITS * 4

/-- `LINE_OF_FIRE_MINIMUM` (stats header, not under `src/`; modelled
from the spec's line-of-fire contract, upstream value 5). -/
def LINE_OF_FIRE_MINIMUM : Int := 5

/-- `world_coord` (map header): tile coordinate to world coordinate. -/
def world_coord (n : Int) : Int := n * TILE_UNITS

/-- `ProjectileTrackerID` (projectile.cpp line 99). -/
def ProjectileTrackerID : Nat := 0xdead0000

/-- `HOMINGINDIRECT_HEIGHT_MIN` (projectile.cpp line 72). -/
def HOMINGINDIRECT_HEIGHT_MIN : Int := 200

/-- `HOMINGINDIRECT_HEIGHT_MAX` (projectile.cpp line 73). -/
def HOMINGINDIRECT_HEIGHT_MAX : Int := 450

inductive ObjType where
  | OBJ_DROID
  | OBJ_STRUCTURE
  | OBJ_FEATURE
deriving DecidableEq

inductive WeaponSubClass where
  | WSC_MGUN
  | WSC_FLAME
  | WSC_LAS_SAT
  | WSC_EMP
  | WSC_ELECTRONIC
  | WSC_OTHER
deriving DecidableEq

inductive MovementModel where
  | MM_DIRECT
  | MM_INDIRECT
  | MM_HOMINGDIRECT
  | MM_HOMINGINDIRECT
deriving DecidableEq

inductive ProjState where
  | INFLIGHT
  | IMPACT
  | POSTIMPACT
  | INACTIVE
deriving DecidableEq

/-- A game object as seen by the projectile subsystem.  `died` is the
source's `UDWORD died` (0 while alive).  `height`/`shape` carry the
values of `establishTargetHeight`/`establishTargetShape`, which the
source computes from graphics-model data not present under `src/`;
`flying` is `DROID::isFlying()`, `airPropMoving` is the radius-sweep
test "propulsion travel is AIR and move status is not inactive",
`vtolMoving` is the periodical-damage test "isVtol() and move status is
not inactive" (all external droid state). -/
structure BaseObject where
  oid : Nat
  otype : ObjType
  player : Nat
  died : Nat
  pos : Vector3i
  prevPos : Vector3i
  damageable : Bool
  flying : Bool
  airPropMoving : Bool
  vtolMoving : Bool
  moveDir : Int
  moveSpeed : Int
  height : Int
  shape : ObjectShape
deriving DecidableEq

/-- Per-player upgraded weapon stats (`WEAPON_STATS::upgrade[player]`,
stats header; carried by the weapon-stats table collaborator). -/
structure WeaponUpgrade where
  maxRange : Int
  minRange : Int
  shortRange : Int
  radius : Int
  empRadius : Int
  periodicalDamageRadius : Int
  periodicalDamageTime : Int
  minimumDamage : Int
  damage : Int
  radiusDamage : Int
  periodicalDamage : Int
deriving DecidableEq

/-- The weapon-stats fields read by projectile.cpp.  `weaponClass` and
the effect indices are opaque table keys passed through to the external
damage handlers. -/
structure WeaponStats where
  movementModel : MovementModel
  weaponSubClass : WeaponSubClass
  weaponClass : Nat
  weaponEffect : Nat
  periodicalDamageWeaponClass : Nat
  periodicalDamageWeaponSubClass : WeaponSubClass
  periodicalDamageWeaponEffect : Nat
  flightSpeed : Int
  penetrate : Bool
  distanceExtensionFactor : Int
  radiusLife : Int
  shootInAir : Bool
  shootOnGround : Bool
  noFriendlyFire : Bool
  upgrade : Nat → WeaponUpgrade

/-- `weaponDamage(stats, player)` (stats header): upgraded base damage. -/
def weaponDamage (stats : WeaponStats) (player : Nat) : Int := (stats.upgrade player).damage

/-- `weaponRadDamage(stats, player)` (stats header). -/
def weaponRadDamage (stats : WeaponStats) (player : Nat) : Int :=
  (stats.upgrade player).radiusDamage

/-- `weaponPeriodicalDamage(stats, player)` (stats header). -/
def weaponPeriodicalDamage (stats : WeaponStats) (player : Nat) : Int :=
  (stats.upgrade player).periodicalDamage

/-- `proj_Direct` (projectile.cpp lines 1554-1569). -/
def proj_Direct (stats : WeaponStats) : Bool :=
  match stats.movementModel with
  | MovementModel.MM_DIRECT => true
  | MovementModel.MM_HOMINGDIRECT => true
  | MovementModel.MM_INDIRECT => false
  | MovementModel.MM_HOMINGINDIRECT => false

/-- `proj_GetLongRange` (lines 1577-1581). -/
def proj_GetLongRange (stats : WeaponStats) (player : Nat) : Int :=
  (stats.upgrade player).maxRange

/-- The projectile entity (`struct PROJECTILE`).  Times are game ticks;
`prevTime`/`prevPos`/`prevRot*` are the previous spacetime sample.
`psSource`/`psDest`/`psDamaged` hold object ids (weak references). -/
structure Projectile where
  pid : Nat
  player : Nat
  state : ProjState
  psWStats : WeaponStats
  src : Vector3i
  dst : Vector3i
  pos : Vector3i
  rotDir : Int
  rotPitch : Int
  rotRoll : Int
  vXY : Int
  vZ : Int
  born : Nat
  died : Nat
  time : Nat
  prevTime : Nat
  prevPos : Vector3i
  prevRotDir : Int
  prevRotPitch : Int
  prevRotRoll : Int
  psSource : Option Nat
  psDest : Option Nat
  psDamaged : List Nat
  expectedDamageCaused : Int
  partVisible : Int
  bVisible : Bool

/-- A (time, position, rotation) sample (`Spacetime`, gamelib). -/
structure Spacetime where
  time : Nat
  pos : Vector3i
  rotDir : Int
  rotPitch : Int
  rotRoll : Int
deriving DecidableEq

/-- One damage application (`struct DAMAGE`, lines 82-93, without the
back-pointer to the projectile, which is passed separately). -/
structure DamageRec where
  psDest : Nat
  damage : Int
  weaponClass : Nat
  weaponSubClass : WeaponSubClass
  impactTime : Nat
  isDamagePerSecond : Bool
  minDamage : Int
  empRadiusHit : Bool
deriving DecidableEq

/-- Observable external calls made by the embedded code: damage
dispatches (with the relative-damage result returned by the external
handler and whether the source was granted experience), electronic-
warfare hits, and terrain set on fire. -/
inductive GameEvent where
  | damaged (victim : Nat) (amount : Int) (isDPS : Bool) (empRadiusHit : Bool)
      (relativeDamage : Int) (expGranted : Bool)
  | electronicHit (victim : Nat) (captured : Bool)
  | terrainSetOnFire
deriving DecidableEq

/-- The world the projectile subsystem runs in: the object arena plus
the external collaborator interfaces of spec §6 (spatial grid, terrain
oracle, trigonometry tables, random draws, damage handlers, ...), all
deterministic functions. -/
structure World where
  objects : List BaseObject
  bMultiPlayer : Bool
  gameTime : Nat
  deltaGameTime : Nat
  mapWidth : Int
  mapHeight : Int
  alliance : Nat → Nat → Bool
  gridQuery : Int → Int → Int → List Nat
  lineIntersect : Vector3i → Vector3i → Nat → Option Nat
  mapHeightAt : Int → Int → Int
  worldOnMap : Int → Int → Bool
  atan2F : Int → Int → Int
  iSinF : Int → Int
  iCosF : Int → Int
  sinCosR : Int → Int → Int × Int
  randDraw : Nat → Nat
  interpolate : Spacetime → Spacetime → Nat → Spacetime
  guessDamage : Nat → Option Nat → Int
  areaOfFire : Option Nat → Option Nat → Int → Int
  muzzle : Nat → Int → Vector3i
  calcDamageO : Int → Nat → BaseObject → Int
  dispatchDamage : BaseObject → DamageRec → Int
  electronicSuccess : Nat → Int → Nat → Bool
  expGain : Nat → Int

def World.lookupObj (w : World) (oid : Nat) : Option BaseObject :=
  w.objects.find? (fun o => o.oid == oid)

/-! ## Expected-damage bookkeeping (claim C1) -/

/-- `aiObjectAddExpectedDamage` (ai.cpp, not under `src/`).  Modelled
from the spec: the transactional `addExpectedDamage`/`removeExpectedDamage`
API on the target object — a no-op for a null target, otherwise adds
`damage` to the target's registered expected-damage total.  (The source
splits the total into direct/indirect sub-counters selected by the
weapon's directness; since each projectile always updates the same
sub-counter, the aggregate modelled here evolves identically.) -/
def aiObjectAddExpectedDamage (dest : Option Nat) (damage : Int)
    (reg : Nat → Int) : Nat → Int :=
  match dest with
  | none => reg
  | some t => fun u => if u = t then reg u + damage else reg u

/-- `setProjectileDestination` (projectile.cpp lines 133-146): move the
projectile's expected damage from the old destination to the new one. -/
def setProjectileDestination (p : Projectile) (newDest : Option Nat)
    (reg : Nat → Int) : Projectile × (Nat → Int) :=
  let reg1 := aiObjectAddExpectedDamage p.psDest (-p.expectedDamageCaused) reg
  let reg2 := aiObjectAddExpectedDamage newDest p.expectedDamageCaused reg1
  ({ p with psDest := newDest }, reg2)

/-! ## Damage dispatch and experience (claim C9) -/

/-- `isFeature` check used by `shouldIncreaseExperience`: null-safe test
that the referenced object is a feature. -/
def isFeatureRef (w : World) (r : Option Nat) : Bool :=
  match r.bind w.lookupObj with
  | some o => o.otype == ObjType.OBJ_FEATURE
  | none => false

/-- `isFriendlyFire` (lines 1710-1713): the projectile has a destination
and the source's player equals the destination's player.  Note: this
tests the projectile's destination, not the victim of the damage
event. -/
def isFriendlyFire (w : World) (p : Projectile) : Bool :=
  match p.psDest with
  | none => false
  | some d =>
    match p.psSource.bind w.lookupObj, w.lookupObj d with
    | some s, some dObj => s.player == dObj.player
    | _, _ => false

/-- `shouldIncreaseExperience` (lines 1715-1718). -/
def shouldIncreaseExperience (w : World) (p : Projectile) : Bool :=
  p.psSource.isSome && !isFeatureRef w p.psDest && !isFriendlyFire w p

/-- `objectDamageDispatch` (lines 1684-1708): route to the external
per-kind damage handler, which returns the signed relative damage. -/
def objectDamageDispatch (w : World) (d : DamageRec) : Int :=
  match w.lookupObj d.psDest with
  | some o => w.dispatchDamage o d
  | none => 0

/-- `objectDamage` (lines 1749-1764): dispatch the damage and report
whether the source was granted experience (`proj_UpdateExperience` and
the kill counters are external mutations; the boolean records whether
they were invoked). -/
def objectDamage (w : World) (p : Projectile) (d : DamageRec) : Int × Bool :=
  (objectDamageDispatch w d, shouldIncreaseExperience w p)

/-! ## Radius sweeps and impact (claims C8, C9, C1) -/

/-- The grid radius used by `proj_radiusSweep` (line 1018). -/
def radiusSweepRadius (stats : WeaponStats) (player : Nat) (empRadius : Bool) : Int :=
  if empRadius then (stats.upgrade player).empRadius else (stats.upgrade player).radius

/-- One candidate of `proj_radiusSweep` (lines 1022-1089): `none` when
the object is skipped, otherwise the damage event applied to it. -/
def radiusSweepCheck (w : World) (p : Projectile) (stats : WeaponStats)
    (targetPos : Vector3i) (empRadius : Bool) (o : BaseObject) : Option GameEvent :=
  if o.died ≠ 0 then none
  else if some o.oid = p.psDest then none
  else if (match p.psSource.bind w.lookupObj with
           | some s => s.player == o.player && stats.noFriendlyFire
           | none => false) then none
  else
    let bTargetInAir := o.otype = ObjType.OBJ_DROID ∧ o.airPropMoving = true
    let useSphere := o.otype = ObjType.OBJ_DROID
    if o.otype = ObjType.OBJ_FEATURE ∧ o.damageable = false then none
    else if (if bTargetInAir then ¬ stats.shootInAir = true
             else ¬ stats.shootOnGround = true) then none
    else if useSphere ∧
        ¬ Vector3i_InSphere o.pos targetPos (radiusSweepRadius stats p.player empRadius) then
      none
    else
      let dmg := w.calcDamageO (weaponRadDamage stats p.player) stats.weaponEffect o
      let rd := objectDamage w p
        ⟨o.oid, dmg, stats.weaponClass, stats.weaponSubClass, p.time, false,
         (stats.upgrade p.player).minimumDamage, empRadius⟩
      some (GameEvent.damaged o.oid dmg false empRadius rd.1 rd.2)

/-- `proj_radiusSweep` (lines 1015-1091): apply area damage to every
qualifying object within the (EMP or splash) radius of `targetPos`. -/
def proj_radiusSweep (w : World) (p : Projectile) (stats : WeaponStats)
    (targetPos : Vector3i) (empRadius : Bool) : List GameEvent :=
  ((w.gridQuery targetPos.x targetPos.y
      (radiusSweepRadius stats p.player empRadius)).filterMap w.lookupObj).filterMap
    (radiusSweepCheck w p stats targetPos empRadius)

/-- Lines 1300-1304 of `proj_ImpactFunc`: temporarily clear the
destination, zero `expectedDamageCaused` (the damage has been done) and
restore the destination, so the projectile's registered contribution
becomes zero. -/
def impactBookkeeping (p1 : Projectile) (reg : Nat → Int) : Projectile × (Nat → Int) :=
  let temp := p1.psDest
  let pr2 := setProjectileDestination p1 Option.none reg
  let p3 := { pr2.1 with expectedDamageCaused := 0 }
  setProjectileDestination p3 temp pr2.2

/-- Lines 1316-1320 of `proj_ImpactFunc`: the centre of the radius
sweeps — the destination droid's position when the destination is a
droid, the projectile's own position otherwise. -/
def impactTargetPos (w : World) (p4 : Projectile) : Vector3i :=
  match p4.psDest.bind w.lookupObj with
  | some dObj => if dObj.otype = ObjType.OBJ_DROID then dObj.pos else p4.pos
  | none => p4.pos

/-- Tail of `proj_ImpactFunc` from line 1300 on: zero the expected-damage
contribution (lines 1300-1304) and resolve the splash / periodical
branches (lines 1306-1345). -/
def proj_ImpactFinish (w : World) (p1 : Projectile) (reg : Nat → Int)
    (events : List GameEvent) : Projectile × (Nat → Int) × List GameEvent :=
  let stats := p1.psWStats
  let upg := stats.upgrade p1.player
  let pr4 := impactBookkeeping p1 reg
  let p4 := pr4.1
  let reg2 := pr4.2
  if upg.radius = 0 ∧ upg.periodicalDamageTime = 0 then
    ({ p4 with state := ProjState.INACTIVE }, reg2, events)
  else
    let hasRadius := upg.radius ≠ 0
    let hasEMPRadius := upg.empRadius ≠ 0
    let p5 := if hasRadius ∨ hasEMPRadius then
        { p4 with state := ProjState.POSTIMPACT, born := w.gameTime }
      else p4
    let targetPos := impactTargetPos w p4
    let sweepEvents := if hasRadius ∨ hasEMPRadius then
        (if hasEMPRadius ∧ stats.weaponSubClass = WeaponSubClass.WSC_EMP then
          proj_radiusSweep w p5 stats targetPos true
         else []) ++
        (if hasRadius then proj_radiusSweep w p5 stats targetPos false else [])
      else []
    let p6 := if upg.periodicalDamageTime ≠ 0 then
        { p5 with state := ProjState.POSTIMPACT, born := w.gameTime }
      else p5
    (p6, reg2, events ++ sweepEvents)

/-- `proj_ImpactFunc` (lines 1095-1346).  Audio and visual effects are
external fire-and-forget calls and are not modelled; the returned event
list records the damage dispatches in call order. -/
def proj_ImpactFunc (w : World) (p0 : Projectile) (reg : Nat → Int) :
    Projectile × (Nat → Int) × List GameEvent :=
  let stats := p0.psWStats
  let upg := stats.upgrade p0.player
  let fireEvents := if upg.periodicalDamageRadius ≠ 0 ∧ upg.periodicalDamageTime ≠ 0 then
      [GameEvent.terrainSetOnFire]
    else []
  match p0.psDest.bind w.lookupObj with
  | none =>
    -- missed (or the destination died): effect-only path, then the common tail
    proj_ImpactFinish w p0 reg fireEvents
  | some dObj =>
    if dObj.otype = ObjType.OBJ_FEATURE ∧ dObj.damageable = false then
      ({ p0 with state := ProjState.INACTIVE }, reg, fireEvents)
    else if proj_Direct stats = true ∧
        stats.weaponSubClass = WeaponSubClass.WSC_ELECTRONIC ∧ p0.psSource ≠ none then
      let dmg := w.calcDamageO (weaponDamage stats p0.player) stats.weaponEffect dObj
      let captured := w.electronicSuccess dObj.oid dmg p0.player
      -- on capture the source's order/target is cleared (external mutation)
      proj_ImpactFinish w p0 reg (fireEvents ++ [GameEvent.electronicHit dObj.oid captured])
    else
      let dmg := w.calcDamageO (weaponDamage stats p0.player) stats.weaponEffect dObj
      let rd := objectDamage w p0
        ⟨dObj.oid, dmg, stats.weaponClass, stats.weaponSubClass, p0.time, false,
         upg.minimumDamage, false⟩
      let p1 := if 0 ≤ rd.1 then { p0 with psDamaged := p0.psDamaged ++ [dObj.oid] } else p0
      proj_ImpactFinish w p1 reg
        (fireEvents ++ [GameEvent.damaged dObj.oid dmg false false rd.1 rd.2])

/-! ## Periodical damage and post-impact (state machine) -/

/-- `proj_checkPeriodicalDamage` (lines 1490-1549).  The
`periodicalDamageStart`/`periodicalDamage` bookkeeping mutated on the
target objects is external state and is not modelled. -/
def proj_checkPeriodicalDamage (w : World) (p : Projectile) : List GameEvent :=
  let stats := p.psWStats
  ((w.gridQuery p.pos.x p.pos.y
      (stats.upgrade p.player).periodicalDamageRadius).filterMap w.lookupObj).filterMap
    (fun o =>
      if o.died ≠ 0 then none
      else if w.alliance p.player o.player = true then none
      else if o.otype = ObjType.OBJ_DROID ∧ o.vtolMoving = true then none
      else if o.otype = ObjType.OBJ_FEATURE ∧ o.damageable = false then none
      else
        let dmg := w.calcDamageO (weaponPeriodicalDamage stats p.player)
          stats.periodicalDamageWeaponEffect o
        let rd := objectDamage w p
          ⟨o.oid, dmg, stats.periodicalDamageWeaponClass,
           stats.periodicalDamageWeaponSubClass, w.gameTime - w.deltaGameTime / 2 + 1, true,
           (stats.upgrade p.player).minimumDamage, false⟩
        some (GameEvent.damaged o.oid dmg true false rd.1 rd.2))

/-- `proj_PostImpactFunc` (lines 1350-1373). -/
def proj_PostImpactFunc (w : World) (p : Projectile) : Projectile × List GameEvent :=
  let stats := p.psWStats
  let age : Int := (w.gameTime : Int) - (p.born : Int)
  if age > stats.radiusLife ∧ age > (stats.upgrade p.player).periodicalDamageTime then
    ({ p with state := ProjState.INACTIVE }, [])
  else if (stats.upgrade p.player).periodicalDamageTime > 0 then
    (p, proj_checkPeriodicalDamage w p)
  else (p, [])

/-! ## Per-tick movement (proj_InFlightFunc, lines 767-858) -/

/-- `quantiseFraction` (game-time library, not under `src/`; modelled
from the spec's per-tick advance contract): the portion of
`numerator/denominator` accumulated between `tPrev` and `t`. -/
def quantiseFraction (v : Vector3i) (den : Int) (t tPrev : Nat) : Vector3i :=
  v3scaleDiv v (t : Int) den - v3scaleDiv v (tPrev : Int) den

/-- `MM_DIRECT` movement (lines 771-783). -/
def projMoveDirect (p : Projectile) (timeSoFar : Int) : Projectile × Int :=
  let stats := p.psWStats
  let delta0 := p.dst - p.src
  let delta := if stats.weaponSubClass = WeaponSubClass.WSC_LAS_SAT then
      { delta0 with z := 0 }
    else delta0
  let targetDistance := max (iHypot2 delta.x delta.y) 1
  let currentDistance := Int.tdiv (timeSoFar * stats.flightSpeed) GAME_TICKS_PER_SEC
  ({ p with pos := p.src + v3scaleDiv delta currentDistance targetDistance }, currentDistance)

/-- `MM_INDIRECT` (ballistic) movement (lines 784-794). -/
def projMoveIndirect (w : World) (p : Projectile) (timeSoFar : Int) : Projectile × Int :=
  let delta0 := p.dst - p.src
  let dz := Int.tdiv ((p.vZ - Int.tdiv (timeSoFar * ACC_GRAVITY) (GAME_TICKS_PER_SEC * 2)) *
    timeSoFar) GAME_TICKS_PER_SEC
  let delta := { delta0 with z := dz }
  let targetDistance := max (iHypot2 delta.x delta.y) 1
  let currentDistance := Int.tdiv (timeSoFar * p.vXY) GAME_TICKS_PER_SEC
  let posA := p.src + v3scaleDiv delta currentDistance targetDistance
  ({ p with
      pos := { posA with z := p.src.z + dz },
      rotPitch := w.atan2F (p.vZ - Int.tdiv (timeSoFar * ACC_GRAVITY) GAME_TICKS_PER_SEC)
        p.vXY },
   currentDistance)

/-- Terrain-avoidance retry loop of `MM_HOMINGINDIRECT` (lines 844-851):
raise the destination altitude while the step would intersect terrain,
up to 10 tries.  Returns the adjusted destination, step, target distance
and delta. -/
def homingAdjustLoop (w : World) (stats : WeaponStats) (p : Projectile) :
    Nat → Vector3i → Vector3i → Int → Vector3i → Vector3i × Vector3i × Int × Vector3i
  | 0, dst, step, targetDistance, delta => (dst, step, targetDistance, delta)
  | fuel + 1, dst, step, targetDistance, delta =>
    match w.lineIntersect p.prevPos (p.pos + step) (iHypot3 step).toNat with
    | some tv =>
      if tv < (targetDistance - 1).toNat then
        let dst2 := { dst with z := dst.z + iHypot2 (dst - p.pos).x (dst - p.pos).y }
        let delta2 := dst2 - p.pos
        let targetDistance2 := max (iHypot3 delta2) 1
        let step2 := quantiseFraction (v3scale delta2 stats.flightSpeed)
          (GAME_TICKS_PER_SEC * targetDistance2) p.time p.prevTime
        homingAdjustLoop w stats p fuel dst2 step2 targetDistance2 delta2
      else (dst, step, targetDistance, delta)
    | none => (dst, step, targetDistance, delta)

/-- `MM_HOMINGDIRECT` / `MM_HOMINGINDIRECT` movement (lines 795-857). -/
def projMoveHoming (w : World) (p0 : Projectile) (timeSoFar deltaProjectileTime : Int) :
    Projectile × Int :=
  let stats := p0.psWStats
  let isHD := stats.movementModel = MovementModel.MM_HOMINGDIRECT
  let destObj := p0.psDest.bind w.lookupObj
  let p1 :=
    match destObj with
    | some tgt =>
      let dst1 := if isHD then
          tgt.pos + (⟨0, 0, tgt.height - Int.tdiv p0.partVisible 2⟩ : Vector3i)
        else tgt.pos + (⟨0, 0, Int.tdiv tgt.height 2⟩ : Vector3i)
      let dst2 := if tgt.otype = ObjType.OBJ_DROID then
          let delta := dst1 - p0.pos
          let flightTime := Int.tdiv (iHypot2 delta.x delta.y * GAME_TICKS_PER_SEC)
            stats.flightSpeed
          let sc := w.sinCosR tgt.moveDir
            (Int.tdiv (min tgt.moveSpeed (Int.tdiv (stats.flightSpeed * 3) 4) * flightTime)
              GAME_TICKS_PER_SEC)
          dst1 + (⟨sc.1, sc.2, 0⟩ : Vector3i)
        else dst1
      { p0 with
        dst := ⟨clipInt dst2.x 0 (world_coord w.mapWidth - 1),
                clipInt dst2.y 0 (world_coord w.mapHeight - 1), dst2.z⟩ }
    | none => p0
  let p2 :=
    if stats.movementModel = MovementModel.MM_HOMINGINDIRECT then
      let dstA := if destObj = Option.none then
          { p1.dst with z := w.mapHeightAt p1.pos.x p1.pos.y - 1 }
        else p1.dst
      let horizontalTargetDistance := iHypot2 (dstA - p1.pos).x (dstA - p1.pos).y
      let sc := w.sinCosR (w.atan2F (dstA - p1.pos).x (dstA - p1.pos).y)
        (Int.tdiv (stats.flightSpeed * 2 * deltaProjectileTime) GAME_TICKS_PER_SEC)
      let terrainHeight := max (w.mapHeightAt p1.pos.x p1.pos.y)
        (w.mapHeightAt (p1.pos.x + sc.1) (p1.pos.y + sc.2))
      let desiredMinHeight := terrainHeight +
        min (Int.tdiv horizontalTargetDistance 4) HOMINGINDIRECT_HEIGHT_MIN
      let desiredMaxHeight := max dstA.z (terrainHeight + HOMINGINDIRECT_HEIGHT_MAX)
      let heightError := p1.pos.z - clipInt p1.pos.z desiredMinHeight desiredMaxHeight
      let newZ := dstA.z -
        Int.tdiv (horizontalTargetDistance * heightError * 2) HOMINGINDIRECT_HEIGHT_MIN
      { p1 with dst := { dstA with z := newZ } }
    else p1
  let delta0 := p2.dst - p2.pos
  let targetDistance0 := max (iHypot3 delta0) 1
  let p3 := if destObj = Option.none ∧ targetDistance0 < 10000 ∧ isHD then
      { p2 with dst := p2.pos + v3scale delta0 10 }
    else p2
  let currentDistance := Int.tdiv (timeSoFar * stats.flightSpeed) GAME_TICKS_PER_SEC
  let step0 := quantiseFraction (v3scale delta0 stats.flightSpeed)
    (GAME_TICKS_PER_SEC * targetDistance0) p3.time p3.prevTime
  let adj :=
    if stats.movementModel = MovementModel.MM_HOMINGINDIRECT ∧ destObj ≠ Option.none then
      homingAdjustLoop w stats p3 10 p3.dst step0 targetDistance0 delta0
    else (p3.dst, step0, targetDistance0, delta0)
  ({ p3 with
      dst := adj.1,
      pos := p3.pos + adj.2.1,
      rotDir := w.atan2F adj.2.2.2.x adj.2.2.2.y,
      rotPitch := w.atan2F adj.2.2.2.z adj.2.2.1 }, currentDistance)

/-- The movement-model switch of `proj_InFlightFunc` (lines 768-858):
advance the projectile one tick and return the distance travelled so
far. -/
def projMove (w : World) (p : Projectile) (timeSoFar deltaProjectileTime : Int) :
    Projectile × Int :=
  match p.psWStats.movementModel with
  | MovementModel.MM_DIRECT => projMoveDirect p timeSoFar
  | MovementModel.MM_INDIRECT => projMoveIndirect w p timeSoFar
  | MovementModel.MM_HOMINGDIRECT => projMoveHoming w p timeSoFar deltaProjectileTime
  | MovementModel.MM_HOMINGINDIRECT => projMoveHoming w p timeSoFar deltaProjectileTime

/-! ## Collision scan (lines 860-930) -/

/-- The sentinel `0xFFFFFFFF` used for `closestCollisionSpacetime.time`
before any collision is found. -/
def UINT32MAX : Nat := 4294967295

def projGetSpacetime (p : Projectile) : Spacetime :=
  ⟨p.time, p.pos, p.rotDir, p.rotPitch, p.rotRoll⟩

def projPrevSpacetime (p : Projectile) : Spacetime :=
  ⟨p.prevTime, p.prevPos, p.prevRotDir, p.prevRotPitch, p.prevRotRoll⟩

/-- `setSpacetime` (gamelib): overwrite the projectile's current
position, rotation and time. -/
def projSetSpacetime (p : Projectile) (st : Spacetime) : Projectile :=
  { p with
    time := st.time,
    pos := st.pos,
    rotDir := st.rotDir,
    rotPitch := st.rotPitch,
    rotRoll := st.rotRoll }

/-- State accumulated over the candidate scan: the earliest collision
time found so far (`UINT32MAX` when none), the interpolated spacetime at
that instant, and the struck object (`none` for terrain). -/
structure ScanAcc where
  time : Nat
  st : Spacetime
  obj : Option BaseObject
deriving DecidableEq

/-- One iteration of the candidate loop (lines 865-918): skip objects on
the damaged list, dead objects, non-damageable features, allied objects
other than the destination, and ground objects for air-only weapons;
otherwise run the swept collision test and keep the earliest hit. -/
def scanCandidate (w : World) (p : Projectile) (stats : WeaponStats)
    (acc : ScanAcc) (o : BaseObject) : ScanAcc :=
  if o.oid ∈ p.psDamaged then acc
  else if o.died ≠ 0 then acc
  else if o.otype = ObjType.OBJ_FEATURE ∧ o.damageable = false then acc
  else if w.alliance o.player p.player = true ∧ some o.oid ≠ p.psDest then acc
  else if stats.shootOnGround = false ∧
      (o.otype = ObjType.OBJ_STRUCTURE ∨ o.otype = ObjType.OBJ_FEATURE ∨
       (o.otype = ObjType.OBJ_DROID ∧ o.flying = false)) then acc
  else
    let psTempObjPrevPos := if o.otype = ObjType.OBJ_DROID then o.prevPos else o.pos
    let diff := p.pos - o.pos
    let prevDiff := p.prevPos - psTempObjPrevPos
    let collision := collisionXYZ prevDiff diff o.shape o.height
    if 0 ≤ collision then
      let collisionTime := p.prevTime + (p.time - p.prevTime) * collision.toNat / 1024
      if collisionTime < acc.time then
        { time := collisionTime,
          st := w.interpolate (projPrevSpacetime p) (projGetSpacetime p) collisionTime,
          obj := some o }
      else acc
    else acc

/-- The object part of the collision scan: fold `scanCandidate` over the
spatial-grid candidates near the projectile. -/
def inFlightScanObjects (w : World) (p : Projectile) (stats : WeaponStats) : ScanAcc :=
  ((w.gridQuery p.pos.x p.pos.y PROJ_NEIGHBOUR_RANGE).filterMap w.lookupObj).foldl
    (scanCandidate w p stats) ⟨UINT32MAX, projGetSpacetime p, Option.none⟩

/-- The full collision scan (objects, then terrain; lines 860-930). -/
def inFlightScan (w : World) (p : Projectile) (stats : WeaponStats) : ScanAcc :=
  let acc := inFlightScanObjects w p stats
  match w.lineIntersect p.prevPos p.pos (p.time - p.prevTime) with
  | some tIT =>
    let ct := p.prevTime + tIT
    if ct < acc.time then
      { time := ct, st := w.interpolate (projPrevSpacetime p) (projGetSpacetime p) ct,
        obj := Option.none }
    else acc
  | none => acc

/-! ## Firing (proj_SendProjectileAngledInternal, lines 445-620) -/

/-- The attacker passed to `proj_SendProjectileAngledInternal`: nothing,
a game object, or (for penetration spawning) the parent projectile. -/
inductive Attacker where
  | nothing
  | obj (oid : Nat)
  | fromProj (p : Projectile)

def attackerRef : Attacker → Option Nat
  | Attacker.nothing => Option.none
  | Attacker.obj oid => some oid
  | Attacker.fromProj _ => Option.none

/-- `proj_SendProjectileAngledInternal` (lines 445-615).  Returns the
new projectile (not yet added to the active list), the updated
expected-damage registry and the incremented tracker counter, or `none`
when aiming at a dead target (the source's `ASSERT_OR_RETURN`).  Audio,
score bookkeeping, muzzle-pitch write-back to the attacker and
counter-battery notification are external effects and are not
modelled. -/
def proj_SendProjectileAngledInternal (w : World) (stats : WeaponStats)
    (attacker : Attacker) (player : Nat) (target : Vector3i) (psTarget : Option Nat)
    (bVisible : Bool) (weapon_slot : Int) (min_angle : Int) (fireTime : Nat)
    (reg : Nat → Int) (nid : Nat) : Option (Projectile × (Nat → Int) × Nat) :=
  let targetDead : Bool := match psTarget.bind w.lookupObj with
    | some t => t.died != 0
    | none => false
  if targetDead = true then Option.none
  else
    let pid := ProjectileTrackerID + (nid + 1)
    let src0 := match attacker with
      | Attacker.nothing => target
      | Attacker.obj oid =>
        (match w.lookupObj oid with
         | some a =>
           if a.otype = ObjType.OBJ_DROID ∧ 0 ≤ weapon_slot then w.muzzle oid weapon_slot
           else if a.otype = ObjType.OBJ_STRUCTURE ∧ 0 ≤ weapon_slot then
             w.muzzle oid weapon_slot
           else a.pos
         | none => target)
      | Attacker.fromProj pp => pp.pos
    let proj0 : Projectile := {
      pid := pid, player := player, state := ProjState.INFLIGHT, psWStats := stats,
      src := src0, dst := target, pos := src0,
      rotDir := 0, rotPitch := 0, rotRoll := 0, vXY := 0, vZ := 0,
      born := fireTime, died := 0, time := fireTime, prevTime := fireTime,
      prevPos := src0, prevRotDir := 0, prevRotPitch := 0, prevRotRoll := 0,
      psSource := Option.none, psDest := Option.none, psDamaged := [],
      expectedDamageCaused := w.guessDamage player psTarget, partVisible := 0,
      bVisible := bVisible }
    let pr1 := setProjectileDestination proj0 psTarget reg
    let proj1 := pr1.1
    let reg1 := pr1.2
    let proj2 := match attacker with
      | Attacker.fromProj pOld =>
        { proj1 with
          born := pOld.born,
          src := pOld.src,
          prevTime := pOld.time - (if pOld.time = w.gameTime then 1 else 0),
          time := w.gameTime,
          psSource := pOld.psSource,
          psDamaged := pOld.psDamaged }
      | Attacker.obj oid => { proj1 with psSource := some oid }
      | Attacker.nothing => proj1
    let proj3 := match psTarget.bind w.lookupObj with
      | some tgt =>
        let maxHeight := tgt.height
        let minHeight := min (max (maxHeight + 2 * LINE_OF_FIRE_MINIMUM -
          w.areaOfFire (attackerRef attacker) psTarget weapon_slot) 0) maxHeight
        { proj2 with
          dst := { proj2.dst with z := tgt.pos.z + minHeight +
            ((w.randDraw (max (maxHeight - minHeight) 1).toNat : Nat) : Int) },
          partVisible := maxHeight - minHeight }
      | none => { proj2 with dst := { proj2.dst with z := target.z + LINE_OF_FIRE_MINIMUM } }
    let deltaPos := proj3.dst - proj3.src
    let dist := iHypot2 deltaPos.x deltaPos.y
    let proj4 :=
      if proj_Direct stats = true then
        { proj3 with
          rotDir := w.atan2F deltaPos.x deltaPos.y,
          rotPitch := w.atan2F deltaPos.z dist }
      else
        let vvv := projCalcIndirectVelocities w.atan2F w.iSinF w.iCosF (w.randDraw 10001)
          dist deltaPos.z stats.flightSpeed min_angle
        { proj3 with
          rotDir := w.atan2F deltaPos.x deltaPos.y,
          vXY := vvv.1,
          vZ := vvv.2.1,
          rotPitch := w.atan2F vvv.2.1 vvv.1 }
    some ({ proj4 with state := ProjState.INFLIGHT }, reg1, nid + 1)

/-! ## In-flight update (proj_InFlightFunc, lines 741-1011) -/

def inFlightTimeSoFar (w : World) (p : Projectile) : Int :=
  (w.gameTime : Int) - (p.born : Int)

/-- Result of one projectile update: the updated projectile, the
expected-damage registry, the tracker counter, a spawned penetration
child (returned to the caller, not added to the registry), and the
observable damage events. -/
structure UpdateResult where
  proj : Projectile
  reg : Nat → Int
  nextId : Nat
  spawned : Option Projectile
  events : List GameEvent

/-- Lines 936-947 of `proj_InFlightFunc`: on a hit, move the projectile
to the interpolated collision spacetime, clamp its time into the current
tick and keep `prevTime` strictly earlier. -/
def impactAdjustTime (w : World) (p2 : Projectile) (st : Spacetime) : Projectile :=
  let p3 := projSetSpacetime p2 st
  let p4 := { p3 with time := max p3.time (w.gameTime - w.deltaGameTime + 1) }
  if p4.time = p4.prevTime then { p4 with prevTime := p4.prevTime - 1 } else p4

/-- `proj_InFlightFunc` (lines 741-1011).  Visual trail effects (lines
969-1009) are external and not modelled. -/
def proj_InFlightFunc (w : World) (p0 : Projectile) (reg : Nat → Int) (nid : Nat) :
    UpdateResult :=
  let stats := p0.psWStats
  let timeSoFar := inFlightTimeSoFar w p0
  let p1 := { p0 with time := w.gameTime }
  let deltaProjectileTime : Int := (p1.time : Int) - (p1.prevTime : Int)
  if w.bMultiPlayer = true ∧ stats.weaponSubClass = WeaponSubClass.WSC_LAS_SAT ∧
      timeSoFar < 4 * GAME_TICKS_PER_SEC then
    ⟨p1, reg, nid, Option.none, []⟩
  else
    let mv := projMove w p1 timeSoFar deltaProjectileTime
    let p2 := mv.1
    let currentDistance := mv.2
    let acc := inFlightScan w p2 stats
    if acc.time ≠ UINT32MAX then
      let p5 := impactAdjustTime w p2 acc.st
      let pr := setProjectileDestination p5 (acc.obj.map (fun o => o.oid)) reg
      let p6 := pr.1
      let reg1 := pr.2
      match acc.obj with
      | some o =>
        if o.otype = ObjType.OBJ_DROID ∧ stats.penetrate = true ∧
            currentDistance < Int.tdiv (5 * proj_GetLongRange stats p6.player) 4 then
          let p7 := { p6 with psDamaged := p6.psDamaged ++ [o.oid] }
          match proj_SendProjectileAngledInternal w stats (Attacker.fromProj p7) p7.player
              p7.dst Option.none true (-1) 0 (w.gameTime - 1) reg1 nid with
          | some (child, reg2, nid2) =>
            ⟨{ p7 with state := ProjState.IMPACT }, reg2, nid2, some child, []⟩
          | none => ⟨{ p7 with state := ProjState.IMPACT }, reg1, nid, Option.none, []⟩
        else ⟨{ p6 with state := ProjState.IMPACT }, reg1, nid, Option.none, []⟩
      | none => ⟨{ p6 with state := ProjState.IMPACT }, reg1, nid, Option.none, []⟩
    else if currentDistance * 100 ≥ proj_GetLongRange stats p2.player *
        stats.distanceExtensionFactor then
      let pr := setProjectileDestination { p2 with state := ProjState.IMPACT }
        Option.none reg
      ⟨pr.1, pr.2, nid, Option.none, []⟩
    else ⟨p2, reg, nid, Option.none, []⟩

/-! ## Per-projectile update and the registry sweep (lines 1377-1486) -/

/-- `PROJECTILE::update` (lines 1377-1439): refresh the previous
spacetime, drop dead references, kill off-map projectiles, then run the
state machine (with the source's switch fallthrough from IN_FLIGHT to
IMPACT to POSTIMPACT). -/
def projUpdate (w : World) (p0 : Projectile) (reg : Nat → Int) (nid : Nat) : UpdateResult :=
  let p1 := { p0 with
    prevTime := p0.time,
    prevPos := p0.pos,
    prevRotDir := p0.rotDir,
    prevRotPitch := p0.rotPitch,
    prevRotRoll := p0.rotRoll }
  let p2 := match p1.psSource.bind w.lookupObj with
    | some s => if s.died ≠ 0 then { p1 with psSource := Option.none } else p1
    | none => p1
  let pr3 := match p2.psDest.bind w.lookupObj with
    | some d => if d.died ≠ 0 then setProjectileDestination p2 Option.none reg else (p2, reg)
    | none => (p2, reg)
  let p3 := pr3.1
  let reg3 := pr3.2
  let p4 := { p3 with psDamaged := p3.psDamaged.filter (fun oid =>
      match w.lookupObj oid with
      | some o => o.died == 0
      | none => false) }
  if w.worldOnMap p4.pos.x p4.pos.y = false then
    ⟨{ p4 with died := 1 }, reg3, nid, Option.none, []⟩
  else if p4.state = ProjState.INFLIGHT then
    let r := proj_InFlightFunc w p4 reg3 nid
    if r.proj.state = ProjState.IMPACT then
      let im := proj_ImpactFunc w r.proj r.reg
      if im.1.state = ProjState.POSTIMPACT then
        let po := proj_PostImpactFunc w im.1
        ⟨po.1, im.2.1, r.nextId, r.spawned, im.2.2 ++ po.2⟩
      else ⟨im.1, im.2.1, r.nextId, r.spawned, im.2.2⟩
    else ⟨r.proj, r.reg, r.nextId, r.spawned, []⟩
  else if p4.state = ProjState.IMPACT then
    let im := proj_ImpactFunc w p4 reg3
    if im.1.state = ProjState.POSTIMPACT then
      let po := proj_PostImpactFunc w im.1
      ⟨po.1, im.2.1, nid, Option.none, im.2.2 ++ po.2⟩
    else ⟨im.1, im.2.1, nid, Option.none, im.2.2⟩
  else if p4.state = ProjState.POSTIMPACT then
    let po := proj_PostImpactFunc w p4
    ⟨po.1, reg3, nid, Option.none, po.2⟩
  else
    ⟨{ p4 with died := p4.time }, reg3, nid, Option.none, []⟩

/-- The result of updating the whole registry: the updated projectiles
(in registry order), final registry/counter, the spawned penetration
children (in spawn order) and the trace of projectile ids in the order
they were updated. -/
structure SweepResult where
  updated : List Projectile
  reg : Nat → Int
  nextId : Nat
  spawned : List Projectile
  trace : List Nat

/-- The update loop of `proj_UpdateAll` (lines 1456-1463): update every
projectile of the list in order, threading the registry state and
collecting spawned children separately. -/
def updateSweep (w : World) : List Projectile → (Nat → Int) → Nat → SweepResult
  | [], reg, nid => ⟨[], reg, nid, [], []⟩
  | p :: rest, reg, nid =>
    let r := projUpdate w p reg nid
    let s := updateSweep w rest r.reg r.nextId
    ⟨r.proj :: s.updated, s.reg, s.nextId, r.spawned.toList ++ s.spawned, p.pid :: s.trace⟩

/-- The erase predicate of `proj_UpdateAll` (lines 1466-1480): a
projectile is kept while alive or until the tick window of its death has
fully elapsed. -/
def projKeep (w : World) (p : Projectile) : Prop :=
  p.died = 0 ∨ w.gameTime - w.deltaGameTime ≤ p.died

instance (w : World) (p : Projectile) : Decidable (projKeep w p) := by
  unfold projKeep
  infer_instance

/-- The projectile registry state: the stable, insertion-ordered list of
live projectiles (`psProjectileList`), the expected-damage registry, and
the projectile tracker counter (`projectileTrackerIDIncrement`). -/
structure SimState where
  projectiles : List Projectile
  reg : Nat → Int
  nextId : Nat

/-- `proj_UpdateAll` (lines 1444-1486): update all projectiles in list
order, erase dead ones, then append the spawned penetration children.
Also returns the update trace (the ids in update order). -/
def proj_UpdateAll (w : World) (s : SimState) : SimState × List Nat :=
  let r := updateSweep w s.projectiles s.reg s.nextId
  (⟨(r.updated.filter (fun p => decide (projKeep w p))) ++ r.spawned, r.reg, r.nextId⟩,
   r.trace)

/-- `proj_SendProjectile` (lines 622-631): fire a projectile and append
it to the active list. -/
def proj_SendProjectile (w : World) (stats : WeaponStats) (attacker : Attacker)
    (player : Nat) (target : Vector3i) (psTarget : Option Nat) (bVisible : Bool)
    (weapon_slot : Int) (s : SimState) : SimState × Bool :=
  match proj_SendProjectileAngledInternal w stats attacker player target psTarget bVisible
      weapon_slot 0 (w.gameTime - 1) s.reg s.nextId with
  | some (pr, reg1, nid1) => (⟨s.projectiles ++ [pr], reg1, nid1⟩, true)
  | none => (s, false)

/-- A call against the subsystem's exposed interface (spec §6): `fire`
or `updateAll`. -/
inductive SimCall where
  | fire (stats : WeaponStats) (attacker : Attacker) (player : Nat)
      (target : Vector3i) (psTarget : Option Nat) (bVisible : Bool) (weapon_slot : Int)
  | updateAll

def runCall (w : World) (s : SimState) : SimCall → SimState
  | SimCall.fire stats attacker player target psTarget bVisible slot =>
    (proj_SendProjectile w stats attacker player target psTarget bVisible slot s).1
  | SimCall.updateAll => (proj_UpdateAll w s).1

/-- A fixed sequence of fire/update calls run against a world (whose
oracles include the fixed random seed). -/
def runCalls (w : World) (calls : List SimCall) (s : SimState) : SimState :=
  calls.foldl (runCall w) s

/-! ## Expected-damage accounting invariant (claim C1) -/

/-- The expected damage a single projectile has registered against
target `t`: its `expectedDamageCaused` when `t` is its current
destination, 0 otherwise. -/
def contribution (t : Nat) (p : Projectile) : Int :=
  if p.psDest = some t then p.expectedDamageCaused else 0

/-- Total expected damage aimed at target `t` by a list of projectiles. -/
def expSum (t : Nat) (ps : List Projectile) : Int := (ps.map (contribution t)).sum

/-- The accounting invariant: the registered expected-damage total of
every target equals the sum of the contributions of all projectiles in
the registry. -/
def destInvariant (ps : List Projectile) (reg : Nat → Int) : Prop :=
  ∀ t, reg t = expSum t ps

/-- The claimed (stronger) invariant: the registered total equals the
sum over the projectiles that are still alive (`died = 0`). -/
def liveInvariant (ps : List Projectile) (reg : Nat → Int) : Prop :=
  ∀ t, reg t = expSum t (ps.filter (fun p => p.died == 0))

/-- The destination is a non-damageable feature: the only hit path on
which `proj_ImpactFunc` returns early (line 1205) without zeroing the
expected-damage bookkeeping. -/
def destNonDamageableFeature (w : World) (p : Projectile) : Prop :=
  match p.psDest.bind w.lookupObj with
  | some d => d.otype = ObjType.OBJ_FEATURE ∧ d.damageable = false
  | none => False

instance (w : World) (p : Projectile) : Decidable (destNonDamageableFeature w p) := by
  unfold destNonDamageableFeature
  cases p.psDest.bind w.lookupObj
  · exact inferInstanceAs (Decidable False)
  · infer_instance

/-- A world with no objects and trivial collaborators, used to
instantiate theorems on concrete inputs. -/
def trivWorld : World := {
  objects := [],
  bMultiPlayer := false,
  gameTime := 1000,
  deltaGameTime := 1000,
  mapWidth := 100,
  mapHeight := 100,
  alliance := fun _ _ => false,
  gridQuery := fun _ _ _ => [],
  lineIntersect := fun _ _ _ => Option.none,
  mapHeightAt := fun _ _ => 0,
  worldOnMap := fun _ _ => true,
  atan2F := fun _ _ => 0,
  iSinF := fun _ => 0,
  iCosF := fun _ => 1,
  sinCosR := fun _ _ => (0, 0),
  randDraw := fun _ => 0,
  interpolate := fun _ cur t => ⟨t, cur.pos, cur.rotDir, cur.rotPitch, cur.rotRoll⟩,
  guessDamage := fun _ _ => 0,
  areaOfFire := fun _ _ _ => 0,
  muzzle := fun _ _ => ⟨0, 0, 0⟩,
  calcDamageO := fun _ _ _ => 10,
  dispatchDamage := fun _ _ => 10,
  electronicSuccess := fun _ _ _ => false,
  expGain := fun _ => 100 }

/-- A plain direct-fire weapon used by the concrete instances. -/
def baseStats : WeaponStats := {
  movementModel := MovementModel.MM_DIRECT,
  weaponSubClass := WeaponSubClass.WSC_OTHER,
  weaponClass := 0,
  weaponEffect := 0,
  periodicalDamageWeaponClass := 0,
  periodicalDamageWeaponSubClass := WeaponSubClass.WSC_OTHER,
  periodicalDamageWeaponEffect := 0,
  flightSpeed := 10,
  penetrate := false,
  distanceExtensionFactor := 10,
  radiusLife := 0,
  shootInAir := true,
  shootOnGround := true,
  noFriendlyFire := false,
  upgrade := fun _ => ⟨100, 0, 0, 0, 0, 0, 0, 0, 10, 10, 10⟩ }

/-- A freshly fired projectile of `baseStats`, used by the concrete
instances. -/
def baseProj : Projectile := {
  pid := 1,
  player := 0,
  state := ProjState.INFLIGHT,
  psWStats := baseStats,
  src := ⟨0, 0, 0⟩,
  dst := ⟨2000, 0, 0⟩,
  pos := ⟨0, 0, 0⟩,
  rotDir := 0,
  rotPitch := 0,
  rotRoll := 0,
  vXY := 0,
  vZ := 0,
  born := 0,
  died := 0,
  time := 0,
  prevTime := 0,
  prevPos := ⟨0, 0, 0⟩,
  prevRotDir := 0,
  prevRotPitch := 0,
  prevRotRoll := 0,
  psSource := Option.none,
  psDest := Option.none,
  psDamaged := [],
  expectedDamageCaused := 0,
  partVisible := 0,
  bVisible := false }

def objC17 : BaseObject :=
  ⟨7, ObjType.OBJ_DROID, 2, 0, ⟨0, 0, 0⟩, ⟨0, 0, 0⟩, true, false, false, false, 0, 0,
   100, ⟨false, 10, 10⟩⟩

/-- A world in which every position is outside the playable map, so a
projectile update immediately marks the projectile dead. -/
def offMapWorld : World :=
  { trivWorld with objects := [objC17], worldOnMap := fun _ _ => false }

def projC1 : Projectile :=
  { baseProj with psDest := some 7, expectedDamageCaused := 5 }

def regC1 : Nat → Int := fun t => if t = 7 then 5 else 0

/-- A droid standing mid-path of the penetration test shot. -/
def penDroid : BaseObject := {
  oid := 42,
  otype := ObjType.OBJ_DROID,
  player := 1,
  died := 0,
  pos := ⟨1000, 0, 0⟩,
  prevPos := ⟨1000, 0, 0⟩,
  damageable := true,
  flying := false,
  airPropMoving := false,
  vtolMoving := false,
  moveDir := 0,
  moveSpeed := 0,
  height := 100,
  shape := ⟨false, 100, 100⟩ }

/-- A fast penetrating direct weapon. -/
def penStats : WeaponStats := { baseStats with
  flightSpeed := 1000,
  penetrate := true,
  upgrade := fun _ => ⟨2000, 0, 0, 0, 0, 0, 0, 0, 10, 10, 10⟩ }

/-- A penetrating projectile headed through the droid. -/
def penProj : Projectile := { baseProj with
  psWStats := penStats,
  dst := ⟨2000, 0, 5⟩ }

/-- The world with the droid on the grid. -/
def penWorld : World := { trivWorld with
  objects := [penDroid],
  gridQuery := fun _ _ _ => [42] }

/-- An EMP weapon whose only area effect is its EMP radius. -/
def empStats : WeaponStats := { baseStats with
  weaponSubClass := WeaponSubClass.WSC_EMP,
  upgrade := fun _ => ⟨100, 0, 0, 0, 5, 0, 0, 0, 10, 10, 10⟩ }

/-- An EMP projectile at the moment of impact (missed shot). -/
def empProj : Projectile := { baseProj with
  psWStats := empStats,
  state := ProjState.IMPACT }

/-- A plain splash weapon (nonzero splash radius). -/
def splashStats : WeaponStats := { baseStats with
  upgrade := fun _ => ⟨100, 0, 0, 3, 0, 0, 0, 0, 10, 10, 10⟩ }

/-- A splash projectile at the moment of impact. -/
def splashProj : Projectile := { baseProj with
  psWStats := splashStats,
  state := ProjState.IMPACT }

/-- The firing droid (player 0). -/
def c9src : BaseObject := { penDroid with oid := 1, player := 0 }

/-- The enemy droid the projectile is aimed at (player 1). -/
def c9dest : BaseObject := { penDroid with oid := 2, player := 1 }

/-- A damageable feature caught in the splash. -/
def c9feat : BaseObject := { penDroid with
  oid := 3,
  player := 1,
  otype := ObjType.OBJ_FEATURE }

/-- A friendly droid (player 0) caught in the splash. -/
def c9ally : BaseObject := { penDroid with oid := 4, player := 0 }

def c9World : World := { trivWorld with
  objects := [c9src, c9dest, c9feat, c9ally] }

/-- The projectile: fired by the player-0 droid at the enemy droid. -/
def c9proj : Projectile := { baseProj with
  psSource := some 1,
  psDest := some 2 }

/-- The same projectile aimed at the feature instead. -/
def c9projF : Projectile := { baseProj with
  psSource := some 1,
  psDest := some 3 }

/-! ## Theorems -/

theorem sqrtBisect_spec (n : Nat) :
    ∀ fuel lo hi, lo * lo ≤ n → n < hi * hi → hi ≤ lo + 2 ^ fuel →
      sqrtBisect n fuel lo hi * sqrtBisect n fuel lo hi ≤ n ∧
        n < (sqrtBisect n fuel lo hi + 1) * (sqrtBisect n fuel lo hi + 1) := by
  intro fuel
  induction fuel with
  | zero =>
    intro lo hi hlo hhi hgap
    simp only [sqrtBisect]
    have h1 : hi ≤ lo + 1 := by simpa using hgap
    exact ⟨hlo, lt_of_lt_of_le hhi (Nat.mul_le_mul h1 h1)⟩
  | succ fuel ih =>
    intro lo hi hlo hhi hgap
    have hpow : 2 ^ (fuel + 1) = 2 ^ fuel * 2 := pow_succ 2 fuel
    simp only [sqrtBisect]
    by_cases hle : hi ≤ lo + 1
    · rw [if_pos hle]
      exact ⟨hlo, lt_of_lt_of_le hhi (Nat.mul_le_mul hle hle)⟩
    · rw [if_neg hle]
      by_cases hmid : ((lo + hi) / 2) * ((lo + hi) / 2) ≤ n
      · rw [if_pos hmid]
        exact ih ((lo + hi) / 2) hi hmid hhi (by omega)
      · rw [if_neg hmid]
        exact ih lo ((lo + hi) / 2) hlo (Nat.lt_of_not_le hmid) (by omega)

theorem natSqrt_spec (n : Nat) (h : n < 2 ^ 64) :
    natSqrt n * natSqrt n ≤ n ∧ n < (natSqrt n + 1) * (natSqrt n + 1) :=
  sqrtBisect_spec n 64 0 (n + 1) (by simp) (by nlinarith) (by omega)

/-! ## Arithmetic facts about C-style truncated division -/

theorem tmodBounds (a t : Int) (ht : 0 < t) : -t < Int.tmod a t ∧ Int.tmod a t < t := by
  rcases le_or_lt 0 a with ha | ha
  · have h1 := Int.tmod_nonneg t ha
    have h2 := Int.tmod_lt_of_pos a ht
    exact ⟨by omega, h2⟩
  · have hA := Int.tdiv_add_tmod a t
    have hB := Int.tdiv_add_tmod (-a) t
    have hC := Int.neg_tdiv a t
    rw [hC] at hB
    have h3 : Int.tmod (-a) t = -Int.tmod a t := by nlinarith [hA, hB]
    have h4 := Int.tmod_nonneg t (by omega : (0:Int) ≤ -a)
    have h5 := Int.tmod_lt_of_pos (-a) ht
    rw [h3] at h4 h5
    exact ⟨by omega, by omega⟩

theorem tdiv_mul_bounds (a t : Int) (ht : 0 < t) :
    a - t < Int.tdiv a t * t ∧ Int.tdiv a t * t < a + t := by
  have h1 := Int.tdiv_add_tmod a t
  have h2 := tmodBounds a t ht
  constructor <;> nlinarith [h2.1, h2.2]

theorem tdiv_floor_bounds (a t : Int) (ha : 0 ≤ a) (ht : 0 < t) :
    0 ≤ Int.tdiv a t ∧ Int.tdiv a t * t ≤ a ∧ a < Int.tdiv a t * t + t := by
  rw [Int.tdiv_eq_ediv ha (le_of_lt ht)]
  refine ⟨Int.ediv_nonneg ha (le_of_lt ht), ?_, ?_⟩
  · exact Int.ediv_mul_le a (by omega)
  · have h1 := Int.ediv_add_emod a t
    have h2 := Int.emod_lt_of_pos a ht
    nlinarith [Int.emod_nonneg a (show t ≠ 0 by omega)]

theorem tdiv_le_of_le_mul (n d c : Int) (hd : 0 < d) (h : n ≤ c * d) (hc : 0 ≤ c) :
    Int.tdiv n d ≤ c := by
  rcases le_or_lt 0 n with hn | hn
  · rw [Int.tdiv_eq_ediv hn (le_of_lt hd)]
    calc n / d ≤ c * d / d := Int.ediv_le_ediv hd h
    _ = c := Int.mul_ediv_cancel c (by omega)
  · have h1 : Int.tdiv (-n) d ≥ 0 := Int.tdiv_nonneg (by omega) (by omega)
    have h2 := Int.neg_tdiv n d
    omega

theorem projCalcStage1_shape (r : Nat) (dx dz v : Int) :
    ∃ t, 1 ≤ t ∧ projCalcStage1 r dx dz v =
      (Int.tdiv (dx * GAME_TICKS_PER_SEC) t,
       Int.tdiv (dz * GAME_TICKS_PER_SEC) t +
         Int.tdiv (ACC_GRAVITY * t) (2 * GAME_TICKS_PER_SEC), t) := by
  unfold projCalcStage1
  exact ⟨_, le_max_left _ _, rfl⟩

theorem projCalc_cases (atan2F : Int → Int → Int) (iSinF iCosF : Int → Int) (r : Nat)
    (dx dz v min_angle : Int) :
    (¬ (projCalcStage1 r dx dz v).2.1 < 0 ∧
     ¬ atan2F (projCalcStage1 r dx dz v).2.1 (projCalcStage1 r dx dz v).1 < min_angle ∧
     projCalcIndirectVelocities atan2F iSinF iCosF r dx dz v min_angle =
       projCalcStage1 r dx dz v) ∨
    ((projCalcStage1 r dx dz v).2.1 < 0 ∧ ∃ t, 1 ≤ t ∧
      projCalcIndirectVelocities atan2F iSinF iCosF r dx dz v min_angle =
        (Int.tdiv (dx * GAME_TICKS_PER_SEC) t, 0, t)) ∨
    (((projCalcStage1 r dx dz v).2.1 < 0 ∨
      atan2F (projCalcStage1 r dx dz v).2.1 (projCalcStage1 r dx dz v).1 < min_angle) ∧
     ∃ t, 1 ≤ t ∧
      projCalcIndirectVelocities atan2F iSinF iCosF r dx dz v min_angle =
        (Int.tdiv (dx * GAME_TICKS_PER_SEC) t,
         Int.tdiv (Int.tdiv (iSinF min_angle * 65536) (iCosF min_angle) *
           Int.tdiv (dx * GAME_TICKS_PER_SEC) t) 65536, t)) := by
  have hRdef : projCalcIndirectVelocities atan2F iSinF iCosF r dx dz v min_angle =
      (if atan2F (projCalcStage2 dx dz (projCalcStage1 r dx dz v)).2.1
            (projCalcStage2 dx dz (projCalcStage1 r dx dz v)).1 < min_angle
       then
         (Int.tdiv (dx * GAME_TICKS_PER_SEC)
            (max 1 (i64Sqrt (Int.tdiv
              (2 * (dx * Int.tdiv (iSinF min_angle * 65536) (iCosF min_angle) -
                  dz * 65536) * GAME_TICKS_PER_SEC * GAME_TICKS_PER_SEC)
              (ACC_GRAVITY * 65536)))),
          Int.tdiv (Int.tdiv (iSinF min_angle * 65536) (iCosF min_angle) *
            Int.tdiv (dx * GAME_TICKS_PER_SEC)
              (max 1 (i64Sqrt (Int.tdiv
                (2 * (dx * Int.tdiv (iSinF min_angle * 65536) (iCosF min_angle) -
                    dz * 65536) * GAME_TICKS_PER_SEC * GAME_TICKS_PER_SEC)
                (ACC_GRAVITY * 65536))))) 65536,
          max 1 (i64Sqrt (Int.tdiv
            (2 * (dx * Int.tdiv (iSinF min_angle * 65536) (iCosF min_angle) -
                dz * 65536) * GAME_TICKS_PER_SEC * GAME_TICKS_PER_SEC)
            (ACC_GRAVITY * 65536))))
       else projCalcStage2 dx dz (projCalcStage1 r dx dz v)) := rfl
  by_cases h1 : (projCalcStage1 r dx dz v).2.1 < 0
  · have hs2 : projCalcStage2 dx dz (projCalcStage1 r dx dz v) =
        (Int.tdiv (dx * GAME_TICKS_PER_SEC)
          (max 1 (i64Sqrt (Int.tdiv
            (-2 * dz * GAME_TICKS_PER_SEC * GAME_TICKS_PER_SEC) ACC_GRAVITY))), 0,
         max 1 (i64Sqrt (Int.tdiv
           (-2 * dz * GAME_TICKS_PER_SEC * GAME_TICKS_PER_SEC) ACC_GRAVITY))) := by
      unfold projCalcStage2
      rw [if_pos h1]
    rw [hs2] at hRdef
    by_cases hang : atan2F
        (Int.tdiv (dx * GAME_TICKS_PER_SEC)
          (max 1 (i64Sqrt (Int.tdiv
            (-2 * dz * GAME_TICKS_PER_SEC * GAME_TICKS_PER_SEC) ACC_GRAVITY))), 0,
         max 1 (i64Sqrt (Int.tdiv
           (-2 * dz * GAME_TICKS_PER_SEC * GAME_TICKS_PER_SEC) ACC_GRAVITY))).2.1
        (Int.tdiv (dx * GAME_TICKS_PER_SEC)
          (max 1 (i64Sqrt (Int.tdiv
            (-2 * dz * GAME_TICKS_PER_SEC * GAME_TICKS_PER_SEC) ACC_GRAVITY))), 0,
         max 1 (i64Sqrt (Int.tdiv
           (-2 * dz * GAME_TICKS_PER_SEC * GAME_TICKS_PER_SEC) ACC_GRAVITY))).1 < min_angle
    · rw [if_pos hang] at hRdef
      exact Or.inr (Or.inr ⟨Or.inl h1, _, le_max_left _ _, hRdef⟩)
    · rw [if_neg hang] at hRdef
      exact Or.inr (Or.inl ⟨h1, _, le_max_left _ _, hRdef⟩)
  · have hs2 : projCalcStage2 dx dz (projCalcStage1 r dx dz v) =
        projCalcStage1 r dx dz v := by
      unfold projCalcStage2
      rw [if_neg h1]
    rw [hs2] at hRdef
    by_cases hang : atan2F (projCalcStage1 r dx dz v).2.1
        (projCalcStage1 r dx dz v).1 < min_angle
    · rw [if_pos hang] at hRdef
      exact Or.inr (Or.inr ⟨Or.inr hang, _, le_max_left _ _, hRdef⟩)
    · rw [if_neg hang] at hRdef
      exact Or.inl ⟨h1, hang, hRdef⟩

theorem projCalcAssemble (dx vx vz t : Int) (hdx : 0 ≤ dx) (ht : 1 ≤ t)
    (hvx : vx = Int.tdiv (dx * GAME_TICKS_PER_SEC) t) (hvz : 0 ≤ vz) :
    1 ≤ t ∧ 0 ≤ vx ∧ vx * t ≤ dx * GAME_TICKS_PER_SEC ∧
      dx * GAME_TICKS_PER_SEC < vx * t + t ∧ 0 ≤ vz := by
  subst hvx
  have hG : (0:Int) ≤ dx * GAME_TICKS_PER_SEC := by
    have h0 : (0:Int) ≤ GAME_TICKS_PER_SEC := by norm_num [GAME_TICKS_PER_SEC]
    exact mul_nonneg hdx h0
  have h := tdiv_floor_bounds (dx * GAME_TICKS_PER_SEC) t hG (by omega)
  exact ⟨ht, h.1, h.2.1, h.2.2, hvz⟩

/-- Claim C3 (amended): `projCalcIndirectVelocities` always returns a
finite flight time `t ≥ 1` in ticks (every assignment to `t` takes a
maximum with 1); for `dx ≥ 0` the returned `vx` is nonnegative (not
strictly positive: `dx = 0` yields `vx = 0`) and satisfies the horizontal
ballistic equation up to division rounding,
`vx·t ≤ dx·GAME_TICKS_PER_SEC < vx·t + t`; the returned `vz` is
nonnegative whenever the trigonometric table satisfies
`iSin min_angle ≥ 0 < iCos min_angle` (true of the real tables for the
minimum angles in `[0°, 90°)` used by callers); and when neither the
downward-shot correction nor the minimum-angle correction fires, the
returned triple is exactly the stage-1 solution, whose vertical component
passes through `dz` at time `t` up to one tick of rounding:
`|(vz - g·t/(2·GTPS))·t - dz·GTPS| < t`. -/
theorem claim_C3 (atan2F : Int → Int → Int) (iSinF iCosF : Int → Int) (r : Nat)
    (dx dz v min_angle vx vz t : Int) (hdx : 0 ≤ dx)
    (hsin : 0 ≤ iSinF min_angle) (hcos : 0 < iCosF min_angle)
    (heq : projCalcIndirectVelocities atan2F iSinF iCosF r dx dz v min_angle = (vx, vz, t)) :
    1 ≤ t ∧ 0 ≤ vx ∧ vx * t ≤ dx * GAME_TICKS_PER_SEC ∧
      dx * GAME_TICKS_PER_SEC < vx * t + t ∧ 0 ≤ vz ∧
      (¬ (projCalcStage1 r dx dz v).2.1 < 0 →
        ¬ atan2F (projCalcStage1 r dx dz v).2.1 (projCalcStage1 r dx dz v).1 < min_angle →
        (vx, vz, t) = projCalcStage1 r dx dz v ∧
        dz * GAME_TICKS_PER_SEC - t <
          (vz - Int.tdiv (ACC_GRAVITY * t) (2 * GAME_TICKS_PER_SEC)) * t ∧
        (vz - Int.tdiv (ACC_GRAVITY * t) (2 * GAME_TICKS_PER_SEC)) * t <
          dz * GAME_TICKS_PER_SEC + t) := by
  obtain ⟨t1, ht1, hs1⟩ := projCalcStage1_shape r dx dz v
  rcases projCalc_cases atan2F iSinF iCosF r dx dz v min_angle with
    ⟨hA, hB, hC⟩ | ⟨hA, t2, ht2, hC⟩ | ⟨hA, t3, ht3, hC⟩
  · -- no correction fired: the result is the stage-1 solution
    rw [hC, hs1] at heq
    injection heq with h1 h23
    injection h23 with h2 h3
    subst h1
    subst h2
    subst h3
    have hvznn : 0 ≤ Int.tdiv (dz * GAME_TICKS_PER_SEC) t1 +
        Int.tdiv (ACC_GRAVITY * t1) (2 * GAME_TICKS_PER_SEC) := by
      rw [hs1] at hA
      simp only [not_lt] at hA
      exact hA
    have h := projCalcAssemble dx _ _ t1 hdx ht1 rfl hvznn
    refine ⟨h.1, h.2.1, h.2.2.1, h.2.2.2.1, h.2.2.2.2, ?_⟩
    intro _ _
    have hb := tdiv_mul_bounds (dz * GAME_TICKS_PER_SEC) t1 (by omega)
    have he : Int.tdiv (dz * GAME_TICKS_PER_SEC) t1 +
        Int.tdiv (ACC_GRAVITY * t1) (2 * GAME_TICKS_PER_SEC) -
        Int.tdiv (ACC_GRAVITY * t1) (2 * GAME_TICKS_PER_SEC) =
        Int.tdiv (dz * GAME_TICKS_PER_SEC) t1 := by ring
    refine ⟨by rw [hs1], ?_, ?_⟩
    · rw [he]
      exact hb.1
    · rw [he]
      exact hb.2
  · -- downward-shot correction fired
    rw [hC] at heq
    injection heq with h1 h23
    injection h23 with h2 h3
    subst h1
    subst h2
    subst h3
    have h := projCalcAssemble dx _ 0 t2 hdx ht2 rfl le_rfl
    refine ⟨h.1, h.2.1, h.2.2.1, h.2.2.2.1, le_rfl, ?_⟩
    intro hh _
    exact absurd hA hh
  · -- minimum-angle correction fired
    rw [hC] at heq
    injection heq with h1 h23
    injection h23 with h2 h3
    subst h1
    subst h2
    subst h3
    have hG : (0:Int) ≤ dx * GAME_TICKS_PER_SEC := by
      have h0 : (0:Int) ≤ GAME_TICKS_PER_SEC := by norm_num [GAME_TICKS_PER_SEC]
      exact mul_nonneg hdx h0
    have hmytan : 0 ≤ Int.tdiv (iSinF min_angle * 65536) (iCosF min_angle) :=
      Int.tdiv_nonneg (by positivity) (by omega)
    have hvx0 : 0 ≤ Int.tdiv (dx * GAME_TICKS_PER_SEC) t3 :=
      Int.tdiv_nonneg hG (by omega)
    have hvznn : 0 ≤ Int.tdiv (Int.tdiv (iSinF min_angle * 65536) (iCosF min_angle) *
        Int.tdiv (dx * GAME_TICKS_PER_SEC) t3) 65536 :=
      Int.tdiv_nonneg (mul_nonneg hmytan hvx0) (by norm_num)
    have h := projCalcAssemble dx _ _ t3 hdx ht3 rfl hvznn
    refine ⟨h.1, h.2.1, h.2.2.1, h.2.2.2.1, h.2.2.2.2, ?_⟩
    intro h1 h2
    rcases hA with hA | hA
    · exact absurd hA h1
    · exact absurd hA h2

/-- Claim C3, counterexample: the claim asserts `vx > 0` for every input,
but at `(dx, dz, v, min_angle) = (0, 0, 100, 0)` the solver returns
`(vx, vz, t) = (0, 0, 1)`, so `vx = 0`.  At this input the result does not
depend on the trigonometric oracles (the minimum-angle branch multiplies
by `dx = 0` in every case). -/
theorem claim_C3_counterexample :
    projCalcIndirectVelocities oracleZero2 oracleZero1 oracleZero1 0 0 0 100 0 = (0, 0, 1) ∧
    ¬ 0 < (projCalcIndirectVelocities oracleZero2 oracleZero1 oracleZero1 0 0 0 100 0).1 := by
  decide

/-- Claim C3 witness: the amended theorem applied at the concrete input
`(dx, dz, v, min_angle) = (10, -3, 200, 0)` with random draw 5 and
trivial trigonometric oracles, where the solver returns `(129, 0, 77)`. -/
theorem claim_C3_witness :
    1 ≤ (77:Int) ∧ 0 ≤ (129:Int) ∧ (129:Int) * 77 ≤ 10 * GAME_TICKS_PER_SEC ∧
      10 * GAME_TICKS_PER_SEC < (129:Int) * 77 + 77 ∧ (0:Int) ≤ 0 ∧
      (¬ (projCalcStage1 5 10 (-3) 200).2.1 < 0 →
        ¬ oracleZero2 (projCalcStage1 5 10 (-3) 200).2.1 (projCalcStage1 5 10 (-3) 200).1 < 0 →
        ((129:Int), (0:Int), (77:Int)) = projCalcStage1 5 10 (-3) 200 ∧
        (-3) * GAME_TICKS_PER_SEC - 77 <
          ((0:Int) - Int.tdiv (ACC_GRAVITY * 77) (2 * GAME_TICKS_PER_SEC)) * 77 ∧
        ((0:Int) - Int.tdiv (ACC_GRAVITY * 77) (2 * GAME_TICKS_PER_SEC)) * 77 <
          (-3) * GAME_TICKS_PER_SEC + 77) :=
  claim_C3 oracleZero2 oracleZero1 oracleOne1 5 10 (-3) 200 0 129 0 77
    (by decide) (by decide) (by decide) (by decide)

/-- Claim C4, counterexample: the claim asserts that for every random
draw the effective speed lies within `[0.95·v, 1.05·v]`.  The solver's
effective squared speed is `randomVariation (v*v)`; the containment,
squared and scaled by 10000, reads
`9025·v² ≤ 10000·randomVariation (v*v) r ≤ 11025·v²`.  At `v = 1` with
draw `r = 0` the division truncates `1·95000/100000` to `0`, so the
effective speed is `0`, outside `[0.95, 1.05]`. -/
theorem claim_C4_counterexample :
    randomVariation (1 * 1) 0 = 0 ∧
    ¬ 9025 * ((1:Int) * 1) ≤ 10000 * randomVariation (1 * 1) 0 := by decide

/-- Claim C4 (amended): the solver perturbs the requested speed by
scaling its square `v²` by `(95000 + r)/100000` with `r = gameRand(10001)`
uniform in `[0, 10000]` (so the speed itself varies by roughly ±2.5 %,
which lies inside the claimed `[0.95·v, 1.05·v]` bracket); for every
draw `r ≤ 10000` and every requested speed `v ≥ 5`, the effective squared
speed stays within `[(0.95·v)², (1.05·v)²]` (for smaller `v` integer
truncation can push it below the bracket); and different draws can yield
different trajectories for the same inputs (draws 0 and 10000 at
`(dx, dz, v) = (10, 0, 200)` give different `(vx, vz, t)`). -/
theorem claim_C4 :
    (∀ (v : Int) (r : Nat), 5 ≤ v → r ≤ 10000 →
      9025 * (v * v) ≤ 10000 * randomVariation (v * v) r ∧
      10000 * randomVariation (v * v) r ≤ 11025 * (v * v)) ∧
    projCalcIndirectVelocities oracleZero2 oracleZero1 oracleZero1 0 10 0 200 0 ≠
      projCalcIndirectVelocities oracleZero2 oracleZero1 oracleZero1 10000 10 0 200 0 := by
  constructor
  · intro v r h5 hr
    have hw : (25:Int) ≤ v * v := by nlinarith
    have hw0 : (0:Int) ≤ v * v := by nlinarith
    have hr0 : (0:Int) ≤ (r : Int) := Int.natCast_nonneg r
    have hr1 : (r : Int) ≤ 10000 := by exact_mod_cast hr
    unfold randomVariation
    rw [Int.tdiv_eq_ediv (by positivity) (by norm_num)]
    have h1 := Int.ediv_add_emod (v * v * (95000 + (r:Int))) 100000
    have h2 := Int.emod_nonneg (v * v * (95000 + (r:Int))) (show (100000:Int) ≠ 0 by norm_num)
    have h3 := Int.emod_lt_of_pos (v * v * (95000 + (r:Int))) (show (0:Int) < 100000 by norm_num)
    have hA : v * v * 95000 ≤ v * v * (95000 + (r:Int)) := by nlinarith
    have hB : v * v * (95000 + (r:Int)) ≤ v * v * 105000 := by nlinarith
    constructor
    · linarith
    · linarith
  · decide

/-- Claim C4 witness: the amended bounds applied at `v = 100`, draw 0. -/
theorem claim_C4_witness :
    (5:Int) ≤ 100 ∧ (0:Nat) ≤ 10000 ∧
    (9025 * ((100:Int) * 100) ≤ 10000 * randomVariation (100 * 100) 0 ∧
      10000 * randomVariation (100 * 100) 0 ≤ 11025 * ((100:Int) * 100)) :=
  ⟨by decide, by decide, claim_C4.1 100 0 (by decide) (by decide)⟩

theorem collisionZsorted_lo_le (w1 w2 height : Int) (hsorted : w1 ≤ w2) :
    (collisionZsorted w1 w2 height).lo ≤ 1024 := by
  unfold collisionZsorted
  by_cases h1 : w1 > height ∨ w2 < -height
  · rw [if_pos h1]
    norm_num
  · rw [if_neg h1]
    push_neg at h1
    by_cases h2 : w1 = w2
    · rw [if_pos h2]
      split
      · norm_num
      · norm_num
    · rw [if_neg h2]
      have hD : 0 < w2 - w1 := by omega
      exact tdiv_le_of_le_mul _ _ 1024 hD (by linarith [h1.2]) (by norm_num)

theorem collisionZ_lo_le (z1 z2 height : Int) : (collisionZ z1 z2 height).lo ≤ 1024 := by
  unfold collisionZ
  by_cases h : z1 > z2
  · rw [if_pos h]
    exact collisionZsorted_lo_le _ _ _ (by omega)
  · rw [if_neg h]
    exact collisionZsorted_lo_le _ _ _ (by omega)

theorem collisionXY_hi_le (x1 y1 x2 y2 radius : Int) :
    (collisionXY x1 y1 x2 y2 radius).hi ≤ 1024 := by
  unfold collisionXY collisionXYq
  split
  · norm_num
  · split
    · split
      · norm_num
      · norm_num
    · exact min_le_left _ _

/-- Claim C5 (amended): `collisionXYZ` returns either -1 (no collision)
or a normalized time of impact in the closed interval `[0, 1024]`; the
upper endpoint 1024 is attainable (see the counterexample), so the
claimed half-open interval `[0, 1024)` is off by one at that boundary. -/
theorem claim_C5 (v1 v2 : Vector3i) (shape : ObjectShape) (height : Int) :
    collisionXYZ v1 v2 shape height = -1 ∨
      (0 ≤ collisionXYZ v1 v2 shape height ∧ collisionXYZ v1 v2 shape height ≤ 1024) := by
  unfold collisionXYZ
  by_cases h1 : intervalEmpty (collisionZ v1.z v2.z height)
  · rw [if_neg (by simpa using h1)]
    exact Or.inl rfl
  · rw [if_pos (by simpa using h1)]
    unfold collisionXYZfinal
    by_cases hrect : shape.isRectangular
    · rw [if_pos hrect]
      by_cases h2 : intervalEmpty (collisionXYZrect (collisionZ v1.z v2.z height) v1 v2 shape)
      · rw [if_neg (by simpa using h2)]
        exact Or.inl rfl
      · rw [if_pos (by simpa using h2)]
        refine Or.inr ⟨le_max_left 0 _, ?_⟩
        have hz := collisionZ_lo_le v1.z v2.z height
        have hxx := collisionZ_lo_le v1.x v2.x shape.sx
        have hyy := collisionZ_lo_le v1.y v2.y shape.sy
        unfold collisionXYZrect
        split
        · simp only [intervalIntersection]
          omega
        · simp only [intervalIntersection]
          omega
    · rw [if_neg hrect]
      by_cases hc : intervalEmpty (intervalIntersection (collisionZ v1.z v2.z height)
          (collisionXY v1.x v1.y v2.x v2.y shape.radius))
      · rw [if_neg (by simpa using hc)]
        exact Or.inl rfl
      · rw [if_pos (by simpa using hc)]
        refine Or.inr ⟨le_max_left 0 _, ?_⟩
        have hxyhi := collisionXY_hi_le v1.x v1.y v2.x v2.y shape.radius
        simp only [intervalEmpty, intervalIntersection, ge_iff_le, not_le] at hc
        simp only [intervalIntersection]
        omega

/-- Claim C5, counterexample: with previous relative position
`(-3, -3, -2)`, current relative position `(-1, -1, -1)`, a rectangular
target of half-sizes `(2, 2)` and height 1, `collisionXYZ` returns
exactly 1024, which lies outside the claimed half-open interval
`[0, 1024)`. -/
theorem claim_C5_counterexample :
    collisionXYZ ⟨-3, -3, -2⟩ ⟨-1, -1, -1⟩ ⟨true, 2, 2⟩ 1 = 1024 ∧
      ¬ collisionXYZ ⟨-3, -3, -2⟩ ⟨-1, -1, -1⟩ ⟨true, 2, 2⟩ 1 < 1024 := by decide

theorem aiAdd_apply (dest : Option Nat) (dmg : Int) (reg : Nat → Int) (t : Nat) :
    aiObjectAddExpectedDamage dest dmg reg t = reg t + (if dest = some t then dmg else 0) := by
  cases dest with
  | none => simp [aiObjectAddExpectedDamage]
  | some u =>
    by_cases h : t = u
    · subst h
      simp [aiObjectAddExpectedDamage]
    · have h2 : ¬ u = t := fun hh => h hh.symm
      simp [aiObjectAddExpectedDamage, h, h2]

theorem expSum_set (t : Nat) (ps : List Projectile) (i : Nat) (p q : Projectile)
    (h : ps.get? i = some p) :
    expSum t (ps.set i q) = expSum t ps - contribution t p + contribution t q := by
  induction ps generalizing i with
  | nil => simp at h
  | cons hd tl ih =>
    cases i with
    | zero =>
      simp only [List.get?] at h
      injection h with h
      subst h
      simp [expSum]
      ring
    | succ n =>
      simp only [List.get?] at h
      have := ih n h
      simp only [List.set, expSum, List.map, List.sum_cons] at this ⊢
      omega

theorem setProjectileDestination_spec (p : Projectile) (d : Option Nat) (reg : Nat → Int) :
    (setProjectileDestination p d reg).1 = { p with psDest := d } ∧
    ∀ t, (setProjectileDestination p d reg).2 t =
      reg t - contribution t p + contribution t { p with psDest := d } := by
  refine ⟨rfl, fun t => ?_⟩
  show aiObjectAddExpectedDamage d p.expectedDamageCaused
      (aiObjectAddExpectedDamage p.psDest (-p.expectedDamageCaused) reg) t = _
  rw [aiAdd_apply, aiAdd_apply]
  have hc : contribution t { p with psDest := d } =
      if d = some t then p.expectedDamageCaused else 0 := rfl
  rw [hc]
  unfold contribution
  split
  · split <;> omega
  · split <;> omega

theorem impactBookkeeping_spec (p1 : Projectile) (reg : Nat → Int) :
    (impactBookkeeping p1 reg).1.expectedDamageCaused = 0 ∧
    (impactBookkeeping p1 reg).1.psDest = p1.psDest ∧
    (∀ t, contribution t (impactBookkeeping p1 reg).1 = 0) ∧
    (∀ t, (impactBookkeeping p1 reg).2 t = reg t - contribution t p1) := by
  refine ⟨rfl, rfl, fun t => ?_, fun t => ?_⟩
  · unfold contribution
    split
    · rfl
    · rfl
  · have key : (impactBookkeeping p1 reg).2 t =
        aiObjectAddExpectedDamage p1.psDest 0
          (aiObjectAddExpectedDamage Option.none (-(0:Int))
            (aiObjectAddExpectedDamage Option.none p1.expectedDamageCaused
              (aiObjectAddExpectedDamage p1.psDest (-p1.expectedDamageCaused) reg))) t := rfl
    rw [key, aiAdd_apply, aiAdd_apply, aiAdd_apply, aiAdd_apply]
    unfold contribution
    have hn : (Option.none : Option Nat) = some t ↔ False := by simp
    split
    · simp
      omega
    · simp

theorem proj_ImpactFinish_spec (w : World) (p1 : Projectile) (reg : Nat → Int)
    (events : List GameEvent) :
    (proj_ImpactFinish w p1 reg events).1.expectedDamageCaused = 0 ∧
    (proj_ImpactFinish w p1 reg events).1.psDest = p1.psDest ∧
    (∀ t, contribution t (proj_ImpactFinish w p1 reg events).1 = 0) ∧
    (∀ t, (proj_ImpactFinish w p1 reg events).2.1 t = reg t - contribution t p1) := by
  have hb := impactBookkeeping_spec p1 reg
  refine ⟨?_, ?_, fun t => ?_, fun t => ?_⟩
  · simp only [proj_ImpactFinish]
    repeat' split
    all_goals exact hb.1
  · simp only [proj_ImpactFinish]
    repeat' split
    all_goals exact hb.2.1
  · simp only [proj_ImpactFinish]
    repeat' split
    all_goals exact hb.2.2.1 t
  · simp only [proj_ImpactFinish]
    repeat' split
    all_goals exact hb.2.2.2 t

theorem proj_ImpactFunc_reg (w : World) (p0 : Projectile) (reg : Nat → Int) :
    (∀ t, (proj_ImpactFunc w p0 reg).2.1 t =
      reg t - contribution t p0 + contribution t (proj_ImpactFunc w p0 reg).1) ∧
    (¬ destNonDamageableFeature w p0 →
      (proj_ImpactFunc w p0 reg).1.expectedDamageCaused = 0) := by
  rcases hd : p0.psDest.bind w.lookupObj with _ | dObj
  · -- miss path
    have h1 : proj_ImpactFunc w p0 reg = proj_ImpactFinish w p0 reg
        (if (p0.psWStats.upgrade p0.player).periodicalDamageRadius ≠ 0 ∧
            (p0.psWStats.upgrade p0.player).periodicalDamageTime ≠ 0 then
          [GameEvent.terrainSetOnFire] else []) := by
      simp only [proj_ImpactFunc, hd]
    have hs := proj_ImpactFinish_spec w p0 reg
      (if (p0.psWStats.upgrade p0.player).periodicalDamageRadius ≠ 0 ∧
          (p0.psWStats.upgrade p0.player).periodicalDamageTime ≠ 0 then
        [GameEvent.terrainSetOnFire] else [])
    rw [h1]
    exact ⟨fun t => by rw [(hs.2.2.1 t), (hs.2.2.2 t)]; ring, fun _ => hs.1⟩
  · -- hit path
    by_cases hf : dObj.otype = ObjType.OBJ_FEATURE ∧ dObj.damageable = false
    · have h1 : proj_ImpactFunc w p0 reg =
          ({ p0 with state := ProjState.INACTIVE }, reg,
           (if (p0.psWStats.upgrade p0.player).periodicalDamageRadius ≠ 0 ∧
               (p0.psWStats.upgrade p0.player).periodicalDamageTime ≠ 0 then
             [GameEvent.terrainSetOnFire] else [])) := by
        simp only [proj_ImpactFunc, hd, if_pos hf]
      rw [h1]
      constructor
      · intro t
        have hcc : contribution t ({ p0 with state := ProjState.INACTIVE }) =
            contribution t p0 := rfl
        rw [hcc]
        ring
      · intro hnd
        exact absurd (by unfold destNonDamageableFeature; rw [hd]; exact hf) hnd
    · -- electronic or ordinary damage, both ending in the common tail
      by_cases he : proj_Direct p0.psWStats = true ∧
          p0.psWStats.weaponSubClass = WeaponSubClass.WSC_ELECTRONIC ∧
          p0.psSource ≠ Option.none
      · have h1 : proj_ImpactFunc w p0 reg = proj_ImpactFinish w p0 reg
            ((if (p0.psWStats.upgrade p0.player).periodicalDamageRadius ≠ 0 ∧
                (p0.psWStats.upgrade p0.player).periodicalDamageTime ≠ 0 then
              [GameEvent.terrainSetOnFire] else []) ++
             [GameEvent.electronicHit dObj.oid
               (w.electronicSuccess dObj.oid
                 (w.calcDamageO (weaponDamage p0.psWStats p0.player)
                   p0.psWStats.weaponEffect dObj) p0.player)]) := by
          simp only [proj_ImpactFunc, hd, if_neg hf, if_pos he]
        rw [h1]
        have hs := proj_ImpactFinish_spec w p0 reg
          ((if (p0.psWStats.upgrade p0.player).periodicalDamageRadius ≠ 0 ∧
              (p0.psWStats.upgrade p0.player).periodicalDamageTime ≠ 0 then
            [GameEvent.terrainSetOnFire] else []) ++
           [GameEvent.electronicHit dObj.oid
             (w.electronicSuccess dObj.oid
               (w.calcDamageO (weaponDamage p0.psWStats p0.player)
                 p0.psWStats.weaponEffect dObj) p0.player)])
        exact ⟨fun t => by rw [(hs.2.2.1 t), (hs.2.2.2 t)]; ring, fun _ => hs.1⟩
      · set dmg := w.calcDamageO (weaponDamage p0.psWStats p0.player)
          p0.psWStats.weaponEffect dObj with hdmg
        set rd := objectDamage w p0
          ⟨dObj.oid, dmg, p0.psWStats.weaponClass, p0.psWStats.weaponSubClass, p0.time, false,
           (p0.psWStats.upgrade p0.player).minimumDamage, false⟩ with hrd
        set p1 := if 0 ≤ rd.1 then { p0 with psDamaged := p0.psDamaged ++ [dObj.oid] }
          else p0 with hp1
        have h1 : proj_ImpactFunc w p0 reg = proj_ImpactFinish w p1 reg
            ((if (p0.psWStats.upgrade p0.player).periodicalDamageRadius ≠ 0 ∧
                (p0.psWStats.upgrade p0.player).periodicalDamageTime ≠ 0 then
              [GameEvent.terrainSetOnFire] else []) ++
             [GameEvent.damaged dObj.oid dmg false false rd.1 rd.2]) := by
          simp only [proj_ImpactFunc, hd, if_neg hf, if_neg he]
        rw [h1]
        have hs := proj_ImpactFinish_spec w p1 reg
          ((if (p0.psWStats.upgrade p0.player).periodicalDamageRadius ≠ 0 ∧
              (p0.psWStats.upgrade p0.player).periodicalDamageTime ≠ 0 then
            [GameEvent.terrainSetOnFire] else []) ++
           [GameEvent.damaged dObj.oid dmg false false rd.1 rd.2])
        have hc1 : ∀ t, contribution t p1 = contribution t p0 := by
          intro t
          rw [hp1]
          split
          · rfl
          · rfl
        have hd1 : p1.psDest = p0.psDest := by
          rw [hp1]
          split
          · rfl
          · rfl
        constructor
        · intro t
          rw [(hs.2.2.1 t), (hs.2.2.2 t), hc1 t]
          ring
        · intro _
          exact hs.1

/-- Claim C1 (amended): every destination reassignment through
`setProjectileDestination` is transactional — it preserves the invariant
that each target's registered expected-damage total equals the sum of
the contributions of all projectiles in the registry — and
`proj_ImpactFunc` both preserves that invariant and zeroes the
projectile's `expectedDamageCaused` (so no stale contribution remains
registered), except on the early-return path where the destination is a
non-damageable feature.  The claim's stronger form — that the registered
total always equals the sum over projectiles that are still *alive* — is
refuted by the counterexample: a projectile killed without impact
resolution (leaving the world bounds) keeps its nonzero registered
contribution. -/
theorem claim_C1 :
    (∀ (ps : List Projectile) (reg : Nat → Int) (i : Nat) (p : Projectile) (d : Option Nat),
      destInvariant ps reg → ps.get? i = some p →
      destInvariant (ps.set i (setProjectileDestination p d reg).1)
        (setProjectileDestination p d reg).2) ∧
    (∀ (w : World) (ps : List Projectile) (reg : Nat → Int) (i : Nat) (p : Projectile),
      destInvariant ps reg → ps.get? i = some p →
      destInvariant (ps.set i (proj_ImpactFunc w p reg).1) (proj_ImpactFunc w p reg).2.1) ∧
    (∀ (w : World) (p : Projectile) (reg : Nat → Int),
      ¬ destNonDamageableFeature w p →
      (proj_ImpactFunc w p reg).1.expectedDamageCaused = 0) := by
  refine ⟨?_, ?_, ?_⟩
  · intro ps reg i p d hinv hget
    intro t
    have hs := setProjectileDestination_spec p d reg
    rw [hs.2 t, hs.1, expSum_set t ps i p _ hget, hinv t]
  · intro w ps reg i p hinv hget
    intro t
    have hs := proj_ImpactFunc_reg w p reg
    rw [hs.1 t, expSum_set t ps i p _ hget, hinv t]
  · intro w p reg hnd
    exact (proj_ImpactFunc_reg w p reg).2 hnd

/-- Claim C1 witness: the amended theorem applied to a one-projectile
registry with an all-zero register, reassigning the destination to
target 7, and to an impact in the trivial world. -/
theorem claim_C1_witness :
    destInvariant [baseProj] (fun _ => 0) ∧
    ([baseProj].get? 0 = some baseProj) ∧
    ¬ destNonDamageableFeature trivWorld baseProj ∧
    destInvariant ([baseProj].set 0
        (setProjectileDestination baseProj (some 7) (fun _ => 0)).1)
      (setProjectileDestination baseProj (some 7) (fun _ => 0)).2 ∧
    (proj_ImpactFunc trivWorld baseProj (fun _ => 0)).1.expectedDamageCaused = 0 := by
  have hinv : destInvariant [baseProj] (fun _ => 0) := by
    intro t
    simp [expSum, contribution, baseProj]
  refine ⟨hinv, rfl, by decide, ?_, ?_⟩
  · exact claim_C1.1 [baseProj] (fun _ => 0) 0 baseProj (some 7) hinv rfl
  · exact claim_C1.2.2 trivWorld baseProj (fun _ => 0) (by decide)

/-- Claim C1, counterexample: the claim as stated — the registered total
always equals the contribution sum over *live* projectiles — fails on a
projectile that leaves the world bounds: `PROJECTILE::update` marks it
dead (line 1406) without running the impact bookkeeping, so target 7
keeps a registered expected damage of 5 while no live projectile targets
it. -/
theorem claim_C1_counterexample :
    liveInvariant [projC1] regC1 ∧
    (projUpdate offMapWorld projC1 regC1 0).proj.died ≠ 0 ∧
    (projUpdate offMapWorld projC1 regC1 0).proj.psDest = some 7 ∧
    (projUpdate offMapWorld projC1 regC1 0).reg 7 = 5 ∧
    ¬ liveInvariant [(projUpdate offMapWorld projC1 regC1 0).proj]
        (projUpdate offMapWorld projC1 regC1 0).reg := by
  refine ⟨?_, by decide, by decide, by decide, ?_⟩
  · intro t
    by_cases h : t = 7
    · subst h
      simp [regC1, expSum, contribution, projC1, baseProj]
    · have h2 : ¬ (some 7 = some t) := fun hh => h (by injection hh; omega)
      simp [regC1, expSum, contribution, projC1, baseProj, h, h2]
  · intro hcl
    have h7 := hcl 7
    have e1 : (projUpdate offMapWorld projC1 regC1 0).reg 7 = 5 := by decide
    have e2 : expSum 7 ([(projUpdate offMapWorld projC1 regC1 0).proj].filter
        (fun p => p.died == 0)) = 0 := by decide
    rw [e1, e2] at h7
    exact absurd h7 (by decide)

/-! ## Registry order and determinism (claims C2, C7) -/

/-- The update sweep processes exactly the projectiles of the input list,
in list (insertion) order: its trace is the list of their ids. -/
theorem updateSweep_trace (w : World) :
    ∀ (ps : List Projectile) (reg : Nat → Int) (nid : Nat),
      (updateSweep w ps reg nid).trace = ps.map (fun p => p.pid) := by
  intro ps
  induction ps with
  | nil => intro reg nid; rfl
  | cons p rest ih =>
    intro reg nid
    simp only [updateSweep, List.map]
    rw [ih]

/-- The update sweep returns one updated projectile per input projectile,
in the same order. -/
theorem updateSweep_length (w : World) :
    ∀ (ps : List Projectile) (reg : Nat → Int) (nid : Nat),
      (updateSweep w ps reg nid).updated.length = ps.length := by
  intro ps
  induction ps with
  | nil => intro reg nid; rfl
  | cons p rest ih =>
    intro reg nid
    simp only [updateSweep, List.length_cons]
    rw [ih]

/-- `proj_UpdateAll` structure: the new registry is the updated
projectiles that survive the erase predicate (in their original relative
order) followed by the spawned penetration children, appended only after
the full sweep; and its trace is the pre-update registry order. -/
theorem proj_UpdateAll_structure (w : World) (s : SimState) :
    (proj_UpdateAll w s).1.projectiles =
      ((updateSweep w s.projectiles s.reg s.nextId).updated.filter
        (fun p => decide (projKeep w p))) ++
      (updateSweep w s.projectiles s.reg s.nextId).spawned ∧
    (proj_UpdateAll w s).2 = s.projectiles.map (fun p => p.pid) := by
  exact ⟨rfl, updateSweep_trace w s.projectiles s.reg s.nextId⟩

/-- Claim C2: the projectile subsystem is deterministic — running the
same fixed sequence of fire/update calls from equal states in the same
world (whose oracles carry the fixed random seed) yields identical
states, hence identical projectile positions, lifecycle states and
damage outcomes; and `proj_UpdateAll` iterates the registry in a stable,
insertion-ordered sequence: its update trace is exactly the ids of the
pre-update registry in order, survivors keep their relative order and
spawned children are appended at the end. -/
theorem claim_C2 :
    (∀ (w : World) (calls1 calls2 : List SimCall) (s1 s2 : SimState),
      calls1 = calls2 → s1 = s2 → runCalls w calls1 s1 = runCalls w calls2 s2) ∧
    (∀ (w : World) (s : SimState),
      (proj_UpdateAll w s).2 = s.projectiles.map (fun p => p.pid)) ∧
    (∀ (w : World) (s : SimState),
      (proj_UpdateAll w s).1.projectiles =
        ((updateSweep w s.projectiles s.reg s.nextId).updated.filter
          (fun p => decide (projKeep w p))) ++
        (updateSweep w s.projectiles s.reg s.nextId).spawned) := by
  refine ⟨?_, ?_, ?_⟩
  · intro w calls1 calls2 s1 s2 hc hs
    rw [hc, hs]
  · intro w s
    exact (proj_UpdateAll_structure w s).2
  · intro w s
    exact (proj_UpdateAll_structure w s).1

/-- Claim C2 witness: the determinism conjunct applied to the empty call
sequence on the empty registry in the trivial world. -/
theorem claim_C2_witness :
    ([] : List SimCall) = [] ∧
    runCalls trivWorld [] ⟨[], fun _ => 0, 0⟩ = runCalls trivWorld [] ⟨[], fun _ => 0, 0⟩ :=
  ⟨rfl, claim_C2.1 trivWorld [] [] ⟨[], fun _ => 0, 0⟩ ⟨[], fun _ => 0, 0⟩ rfl rfl⟩

/-- Movement never changes the firing player. -/
theorem projMove_player (w : World) (p : Projectile) (t d : Int) :
    (projMove w p t d).1.player = p.player := by
  unfold projMove
  cases hm : p.psWStats.movementModel
  all_goals simp only [projMoveDirect, projMoveIndirect, projMoveHoming]
  all_goals repeat' split
  all_goals rfl

/-- Movement never changes the lifecycle state. -/
theorem projMove_state (w : World) (p : Projectile) (t d : Int) :
    (projMove w p t d).1.state = p.state := by
  unfold projMove
  cases hm : p.psWStats.movementModel
  all_goals simp only [projMoveDirect, projMoveIndirect, projMoveHoming]
  all_goals repeat' split
  all_goals rfl

set_option maxHeartbeats 2000000 in
/-- Claim C6 (amended): when the in-flight update's collision scan finds
nothing (sentinel time) and the LasSat multiplayer hold-off does not
apply, the projectile transitions to IMPACT with its destination cleared
and no child spawned as soon as the distance travelled reaches
`longRange * distanceExtensionFactor / 100` — the source fires at `>=`,
not only when the distance strictly exceeds the threshold — and below
the threshold it merely moves, keeping its lifecycle state. -/
theorem claim_C6 (w : World) (p : Projectile) (reg : Nat → Int) (nid : Nat)
    (hLas : ¬ (w.bMultiPlayer = true ∧
        p.psWStats.weaponSubClass = WeaponSubClass.WSC_LAS_SAT ∧
        inFlightTimeSoFar w p < 4 * GAME_TICKS_PER_SEC))
    (hscan : (inFlightScan w
        (projMove w { p with time := w.gameTime } (inFlightTimeSoFar w p)
          ((w.gameTime : Int) - (p.prevTime : Int))).1 p.psWStats).time = UINT32MAX) :
    ((projMove w { p with time := w.gameTime } (inFlightTimeSoFar w p)
        ((w.gameTime : Int) - (p.prevTime : Int))).2 * 100 ≥
        proj_GetLongRange p.psWStats p.player * p.psWStats.distanceExtensionFactor →
      (proj_InFlightFunc w p reg nid).proj.state = ProjState.IMPACT ∧
      (proj_InFlightFunc w p reg nid).proj.psDest = Option.none ∧
      (proj_InFlightFunc w p reg nid).spawned = Option.none) ∧
    ((projMove w { p with time := w.gameTime } (inFlightTimeSoFar w p)
        ((w.gameTime : Int) - (p.prevTime : Int))).2 * 100 <
        proj_GetLongRange p.psWStats p.player * p.psWStats.distanceExtensionFactor →
      (proj_InFlightFunc w p reg nid).proj =
        (projMove w { p with time := w.gameTime } (inFlightTimeSoFar w p)
          ((w.gameTime : Int) - (p.prevTime : Int))).1 ∧
      (proj_InFlightFunc w p reg nid).proj.state = p.state) := by
  have hpl := projMove_player w { p with time := w.gameTime } (inFlightTimeSoFar w p)
    ((w.gameTime : Int) - (p.prevTime : Int))
  have hst := projMove_state w { p with time := w.gameTime } (inFlightTimeSoFar w p)
    ((w.gameTime : Int) - (p.prevTime : Int))
  constructor
  · intro hge
    simp only [proj_InFlightFunc]
    rw [if_neg hLas, if_neg (not_not_intro hscan), hpl, if_pos hge]
    exact ⟨rfl, rfl, rfl⟩
  · intro hlt
    simp only [proj_InFlightFunc]
    rw [if_neg hLas, if_neg (not_not_intro hscan), hpl, if_neg (not_le.mpr hlt)]
    exact ⟨rfl, hst⟩

/-- Claim C6, counterexample to the original strict-"exceeds" reading:
with `flightSpeed = 10`, one second of flight gives distance exactly 10,
and `maxRange = 100` with `distanceExtensionFactor = 10` gives threshold
`100 * 10 / 100 = 10`; the distance does NOT exceed the threshold, yet
the projectile is put into IMPACT with its destination cleared. -/
theorem claim_C6_counterexample :
    (projMove trivWorld { baseProj with time := trivWorld.gameTime }
        (inFlightTimeSoFar trivWorld baseProj)
        ((trivWorld.gameTime : Int) - (baseProj.prevTime : Int))).2 = 10 ∧
    Int.tdiv (proj_GetLongRange baseProj.psWStats baseProj.player *
      baseProj.psWStats.distanceExtensionFactor) 100 = 10 ∧
    ¬ ((10 : Int) > 10) ∧
    (proj_InFlightFunc trivWorld baseProj (fun _ => 0) 0).proj.state = ProjState.IMPACT ∧
    (proj_InFlightFunc trivWorld baseProj (fun _ => 0) 0).proj.psDest = Option.none := by
  refine ⟨by decide, by decide, by decide, by decide, by decide⟩

/-- Claim C6 witness: the theorem applied to the trivial world and base
projectile, whose scan finds nothing and which sits exactly at the range
threshold. -/
theorem claim_C6_witness :
    ((projMove trivWorld { baseProj with time := trivWorld.gameTime }
        (inFlightTimeSoFar trivWorld baseProj)
        ((trivWorld.gameTime : Int) - (baseProj.prevTime : Int))).2 * 100 ≥
        proj_GetLongRange baseProj.psWStats baseProj.player *
          baseProj.psWStats.distanceExtensionFactor →
      (proj_InFlightFunc trivWorld baseProj (fun _ => 0) 0).proj.state = ProjState.IMPACT ∧
      (proj_InFlightFunc trivWorld baseProj (fun _ => 0) 0).proj.psDest = Option.none ∧
      (proj_InFlightFunc trivWorld baseProj (fun _ => 0) 0).spawned = Option.none) ∧
    ((projMove trivWorld { baseProj with time := trivWorld.gameTime }
        (inFlightTimeSoFar trivWorld baseProj)
        ((trivWorld.gameTime : Int) - (baseProj.prevTime : Int))).2 * 100 <
        proj_GetLongRange baseProj.psWStats baseProj.player *
          baseProj.psWStats.distanceExtensionFactor →
      (proj_InFlightFunc trivWorld baseProj (fun _ => 0) 0).proj =
        (projMove trivWorld { baseProj with time := trivWorld.gameTime }
          (inFlightTimeSoFar trivWorld baseProj)
          ((trivWorld.gameTime : Int) - (baseProj.prevTime : Int))).1 ∧
      (proj_InFlightFunc trivWorld baseProj (fun _ => 0) 0).proj.state = baseProj.state) :=
  claim_C6 trivWorld baseProj (fun _ => 0) 0 (by decide) (by decide)

/-- Movement never changes the born time. -/
theorem projMove_born (w : World) (p : Projectile) (t d : Int) :
    (projMove w p t d).1.born = p.born := by
  unfold projMove
  cases hm : p.psWStats.movementModel
  all_goals simp only [projMoveDirect, projMoveIndirect, projMoveHoming]
  all_goals repeat' split
  all_goals rfl

/-- Movement never changes the source reference. -/
theorem projMove_psSource (w : World) (p : Projectile) (t d : Int) :
    (projMove w p t d).1.psSource = p.psSource := by
  unfold projMove
  cases hm : p.psWStats.movementModel
  all_goals simp only [projMoveDirect, projMoveIndirect, projMoveHoming]
  all_goals repeat' split
  all_goals rfl

/-- Movement never changes the damaged list. -/
theorem projMove_psDamaged (w : World) (p : Projectile) (t d : Int) :
    (projMove w p t d).1.psDamaged = p.psDamaged := by
  unfold projMove
  cases hm : p.psWStats.movementModel
  all_goals simp only [projMoveDirect, projMoveIndirect, projMoveHoming]
  all_goals repeat' split
  all_goals rfl

/-- The post-hit time clamp only touches the spacetime fields. -/
theorem impactAdjustTime_fields (w : World) (p : Projectile) (st : Spacetime) :
    (impactAdjustTime w p st).player = p.player ∧
    (impactAdjustTime w p st).born = p.born ∧
    (impactAdjustTime w p st).psSource = p.psSource ∧
    (impactAdjustTime w p st).psDamaged = p.psDamaged ∧
    (impactAdjustTime w p st).pos = st.pos ∧
    (impactAdjustTime w p st).dst = p.dst := by
  simp only [impactAdjustTime, projSetSpacetime]
  split
  all_goals exact ⟨rfl, rfl, rfl, rfl, rfl, rfl⟩

/-- `setProjectileDestination` just stores the new destination on the
projectile. -/
theorem setDest_proj (p : Projectile) (d : Option Nat) (reg : Nat → Int) :
    (setProjectileDestination p d reg).1 = { p with psDest := d } := rfl

/-- Firing at no target never trips the dead-target early return. -/
theorem sendProjectile_none_isSome (w : World) (stats : WeaponStats) (att : Attacker)
    (player : Nat) (target : Vector3i) (bv : Bool) (ws ma : Int) (ft : Nat)
    (reg : Nat → Int) (nid : Nat) :
    (proj_SendProjectileAngledInternal w stats att player target Option.none bv ws ma ft
      reg nid).isSome = true := rfl

set_option maxHeartbeats 2000000 in
/-- What a penetration spawn returns: the registry is unchanged, the
counter advances by one, and the child starts IN_FLIGHT at the current
game time from the parent's position, aimed at the parent's x/y aim
point, inheriting born, source and damaged-list. -/
theorem sendProjectile_fromProj_spec (w : World) (stats : WeaponStats) (pOld : Projectile)
    (target : Vector3i) (bv : Bool) (ws ma : Int) (ft : Nat) (reg : Nat → Int) (nid : Nat)
    (child : Projectile) (r2 : Nat → Int) (n2 : Nat)
    (h : proj_SendProjectileAngledInternal w stats (Attacker.fromProj pOld) pOld.player
      target Option.none bv ws ma ft reg nid = some (child, r2, n2)) :
    r2 = reg ∧ n2 = nid + 1 ∧
    child.state = ProjState.INFLIGHT ∧
    child.born = pOld.born ∧
    child.psSource = pOld.psSource ∧
    child.psDamaged = pOld.psDamaged ∧
    child.pos = pOld.pos ∧
    child.dst.x = target.x ∧
    child.dst.y = target.y ∧
    child.time = w.gameTime := by
  simp only [proj_SendProjectileAngledInternal, setProjectileDestination,
    aiObjectAddExpectedDamage, Option.none_bind, reduceIte] at h
  repeat' split at h
  all_goals first
    | (injection h with h1
       injection h1 with hc h2
       injection h2 with hr hn
       subst hc
       subst hr
       subst hn
       exact ⟨rfl, rfl, rfl, rfl, rfl, rfl, rfl, rfl, rfl, rfl⟩)
    | injection h

set_option maxHeartbeats 2000000 in
/-- Claim C7: when the in-flight scan of a penetrating weapon hits a
droid before 1.25x long range, exactly one child projectile is spawned
(tracker counter advances by one); the child continues from the hit
point (the parent's post-hit position) toward the parent's x/y aim
point, inherits the parent's born time, source and damaged-list (which
now includes the struck droid), starts IN_FLIGHT at the current game
time while the parent goes to IMPACT; the child is returned to the
caller rather than added to the registry, and `proj_UpdateAll` appends
spawned children to the registry only after the full update sweep, so a
child is never updated in the tick in which it spawns. -/
theorem claim_C7 (w : World) (p : Projectile) (reg : Nat → Int) (nid : Nat) (o : BaseObject)
    (hLas : ¬ (w.bMultiPlayer = true ∧
        p.psWStats.weaponSubClass = WeaponSubClass.WSC_LAS_SAT ∧
        inFlightTimeSoFar w p < 4 * GAME_TICKS_PER_SEC))
    (hHit : (inFlightScan w
        (projMove w { p with time := w.gameTime } (inFlightTimeSoFar w p)
          ((w.gameTime : Int) - (p.prevTime : Int))).1 p.psWStats).time ≠ UINT32MAX)
    (hobj : (inFlightScan w
        (projMove w { p with time := w.gameTime } (inFlightTimeSoFar w p)
          ((w.gameTime : Int) - (p.prevTime : Int))).1 p.psWStats).obj = some o)
    (hdroid : o.otype = ObjType.OBJ_DROID)
    (hpen : p.psWStats.penetrate = true)
    (hdist : (projMove w { p with time := w.gameTime } (inFlightTimeSoFar w p)
        ((w.gameTime : Int) - (p.prevTime : Int))).2 <
      Int.tdiv (5 * proj_GetLongRange p.psWStats p.player) 4) :
    (∃ child,
      (proj_InFlightFunc w p reg nid).spawned = some child ∧
      (proj_InFlightFunc w p reg nid).nextId = nid + 1 ∧
      (proj_InFlightFunc w p reg nid).proj.state = ProjState.IMPACT ∧
      child.state = ProjState.INFLIGHT ∧
      child.born = p.born ∧
      child.psSource = p.psSource ∧
      child.psDamaged = (proj_InFlightFunc w p reg nid).proj.psDamaged ∧
      child.psDamaged = p.psDamaged ++ [o.oid] ∧
      child.pos = (inFlightScan w
        (projMove w { p with time := w.gameTime } (inFlightTimeSoFar w p)
          ((w.gameTime : Int) - (p.prevTime : Int))).1 p.psWStats).st.pos ∧
      child.dst.x = (projMove w { p with time := w.gameTime } (inFlightTimeSoFar w p)
        ((w.gameTime : Int) - (p.prevTime : Int))).1.dst.x ∧
      child.dst.y = (projMove w { p with time := w.gameTime } (inFlightTimeSoFar w p)
        ((w.gameTime : Int) - (p.prevTime : Int))).1.dst.y ∧
      child.time = w.gameTime) ∧
    (∀ (s : SimState),
      (proj_UpdateAll w s).1.projectiles =
        ((updateSweep w s.projectiles s.reg s.nextId).updated.filter
          (fun q => decide (projKeep w q))) ++
        (updateSweep w s.projectiles s.reg s.nextId).spawned) := by
  have hpl := projMove_player w { p with time := w.gameTime } (inFlightTimeSoFar w p)
    ((w.gameTime : Int) - (p.prevTime : Int))
  obtain ⟨hAp, hAb, hAs, hAd, hApos, hAdst⟩ := impactAdjustTime_fields w
    (projMove w { p with time := w.gameTime } (inFlightTimeSoFar w p)
      ((w.gameTime : Int) - (p.prevTime : Int))).1
    (inFlightScan w (projMove w { p with time := w.gameTime } (inFlightTimeSoFar w p)
      ((w.gameTime : Int) - (p.prevTime : Int))).1 p.psWStats).st
  refine ⟨?_, fun s => (proj_UpdateAll_structure w s).1⟩
  simp only [proj_InFlightFunc]
  rw [if_neg hLas, if_pos hHit]
  split
  case _ o' heq =>
    rw [hobj] at heq
    injection heq with ho
    subst ho
    split
    case _ hcond =>
      split
      case _ child r2 n2 hcall =>
        obtain ⟨hr2, hn2, hcs, hcb, hcsrc, hcdmg, hcpos, hcdx, hcdy, hct⟩ :=
          sendProjectile_fromProj_spec w p.psWStats _ _ true (-1) 0 (w.gameTime - 1)
            _ nid child r2 n2 hcall
        subst hr2
        subst hn2
        refine ⟨child, rfl, rfl, rfl, hcs, ?_, ?_, ?_, ?_, ?_, ?_, ?_, hct⟩
        · rw [hcb]
          simp only [setDest_proj, hAb, projMove_born]
        · rw [hcsrc]
          simp only [setDest_proj, hAs, projMove_psSource]
        · rw [hcdmg]
        · rw [hcdmg]
          simp only [setDest_proj, hAd, projMove_psDamaged]
        · rw [hcpos]
          simp only [setDest_proj, hApos]
        · rw [hcdx]
          simp only [setDest_proj, hAdst]
        · rw [hcdy]
          simp only [setDest_proj, hAdst]
      case _ hcall =>
        exact absurd hcall (Option.ne_none_iff_isSome.mpr
          (sendProjectile_none_isSome _ _ _ _ _ _ _ _ _ _ _))
    case _ hncond =>
      refine absurd ⟨hdroid, hpen, ?_⟩ hncond
      simp only [setDest_proj, hAp, hpl]
      exact hdist
  case _ heq =>
    rw [hobj] at heq
    exact absurd heq (by simp)

set_option maxHeartbeats 2000000 in
/-- Claim C7 witness: the theorem applied to the penetration world —
the shot passes through the droid at distance 1000, within 1.25x the
2000 long range. -/
theorem claim_C7_witness :
    (∃ child,
      (proj_InFlightFunc penWorld penProj (fun _ => 0) 0).spawned = some child ∧
      (proj_InFlightFunc penWorld penProj (fun _ => 0) 0).nextId = 0 + 1 ∧
      (proj_InFlightFunc penWorld penProj (fun _ => 0) 0).proj.state = ProjState.IMPACT ∧
      child.state = ProjState.INFLIGHT ∧
      child.born = penProj.born ∧
      child.psSource = penProj.psSource ∧
      child.psDamaged = (proj_InFlightFunc penWorld penProj (fun _ => 0) 0).proj.psDamaged ∧
      child.psDamaged = penProj.psDamaged ++ [penDroid.oid] ∧
      child.pos = (inFlightScan penWorld
        (projMove penWorld { penProj with time := penWorld.gameTime }
          (inFlightTimeSoFar penWorld penProj)
          ((penWorld.gameTime : Int) - (penProj.prevTime : Int))).1
        penProj.psWStats).st.pos ∧
      child.dst.x = (projMove penWorld { penProj with time := penWorld.gameTime }
        (inFlightTimeSoFar penWorld penProj)
        ((penWorld.gameTime : Int) - (penProj.prevTime : Int))).1.dst.x ∧
      child.dst.y = (projMove penWorld { penProj with time := penWorld.gameTime }
        (inFlightTimeSoFar penWorld penProj)
        ((penWorld.gameTime : Int) - (penProj.prevTime : Int))).1.dst.y ∧
      child.time = penWorld.gameTime) ∧
    (∀ (s : SimState),
      (proj_UpdateAll penWorld s).1.projectiles =
        ((updateSweep penWorld s.projectiles s.reg s.nextId).updated.filter
          (fun q => decide (projKeep penWorld q))) ++
        (updateSweep penWorld s.projectiles s.reg s.nextId).spawned) :=
  claim_C7 penWorld penProj (fun _ => 0) 0 penDroid (by decide) (by decide) (by decide)
    (by decide) (by decide) (by decide)

/-- Claim C8 (amended): the impact tail first tests `radius == 0 &&
periodicalDamageTime == 0` — a weapon whose only area effect is a
nonzero EMP radius passes that test and goes straight to INACTIVE with
no sweep, contrary to the claim.  When the test fails, the sweeps run in
order (EMP sweep only for EMP-subclass weapons with nonzero EMP radius,
then the splash sweep if the splash radius is nonzero) and the
projectile transitions to POSTIMPACT whenever either radius is nonzero;
and every sweep candidate equal to the primary target is excluded. -/
theorem claim_C8 (w : World) (p1 : Projectile) (reg : Nat → Int) (events : List GameEvent)
    (o : BaseObject) (tp : Vector3i) (er : Bool) :
    ((p1.psWStats.upgrade p1.player).radius = 0 ∧
        (p1.psWStats.upgrade p1.player).periodicalDamageTime = 0 →
      (proj_ImpactFinish w p1 reg events).1.state = ProjState.INACTIVE ∧
      (proj_ImpactFinish w p1 reg events).2.2 = events) ∧
    (¬ ((p1.psWStats.upgrade p1.player).radius = 0 ∧
        (p1.psWStats.upgrade p1.player).periodicalDamageTime = 0) →
      ((p1.psWStats.upgrade p1.player).radius ≠ 0 ∨
          (p1.psWStats.upgrade p1.player).empRadius ≠ 0 →
        (proj_ImpactFinish w p1 reg events).1.state = ProjState.POSTIMPACT) ∧
      (proj_ImpactFinish w p1 reg events).2.2 = events ++
        (if (p1.psWStats.upgrade p1.player).radius ≠ 0 ∨
            (p1.psWStats.upgrade p1.player).empRadius ≠ 0 then
          (if (p1.psWStats.upgrade p1.player).empRadius ≠ 0 ∧
              p1.psWStats.weaponSubClass = WeaponSubClass.WSC_EMP then
            proj_radiusSweep w
              (if (p1.psWStats.upgrade p1.player).radius ≠ 0 ∨
                  (p1.psWStats.upgrade p1.player).empRadius ≠ 0 then
                { p1 with
                  expectedDamageCaused := 0,
                  state := ProjState.POSTIMPACT,
                  born := w.gameTime }
              else { p1 with expectedDamageCaused := 0 })
              p1.psWStats (impactTargetPos w { p1 with expectedDamageCaused := 0 }) true
          else []) ++
          (if (p1.psWStats.upgrade p1.player).radius ≠ 0 then
            proj_radiusSweep w
              (if (p1.psWStats.upgrade p1.player).radius ≠ 0 ∨
                  (p1.psWStats.upgrade p1.player).empRadius ≠ 0 then
                { p1 with
                  expectedDamageCaused := 0,
                  state := ProjState.POSTIMPACT,
                  born := w.gameTime }
              else { p1 with expectedDamageCaused := 0 })
              p1.psWStats (impactTargetPos w { p1 with expectedDamageCaused := 0 }) false
          else [])
        else [])) ∧
    (some o.oid = p1.psDest →
      radiusSweepCheck w p1 p1.psWStats tp er o = none) := by
  refine ⟨?_, ?_, ?_⟩
  · intro h
    simp only [proj_ImpactFinish]
    rw [if_pos h]
    exact ⟨rfl, rfl⟩
  · intro h
    simp only [proj_ImpactFinish]
    rw [if_neg h]
    refine ⟨?_, rfl⟩
    intro hre
    rw [if_pos hre]
    by_cases hpd : (p1.psWStats.upgrade p1.player).periodicalDamageTime ≠ 0
    · rw [if_pos hpd]
    · rw [if_neg hpd]
  · intro h
    unfold radiusSweepCheck
    by_cases hd : o.died ≠ 0
    · rw [if_pos hd]
    · rw [if_neg hd, if_pos h]

/-- Claim C8, counterexample: a weapon with a nonzero EMP radius but
zero splash radius and no periodical damage is sent straight to
INACTIVE by `proj_ImpactFunc` and performs no radius sweep at all:
the early `radius == 0 && periodicalDamageTime == 0` exit ignores the
EMP radius. -/
theorem claim_C8_counterexample :
    (empProj.psWStats.upgrade empProj.player).empRadius ≠ 0 ∧
    empProj.psWStats.weaponSubClass = WeaponSubClass.WSC_EMP ∧
    (proj_ImpactFunc trivWorld empProj (fun _ => 0)).1.state = ProjState.INACTIVE ∧
    ¬ (proj_ImpactFunc trivWorld empProj (fun _ => 0)).1.state = ProjState.POSTIMPACT ∧
    (proj_ImpactFunc trivWorld empProj (fun _ => 0)).2.2 = [] := by
  refine ⟨by decide, by decide, by decide, by decide, by decide⟩

/-- Claim C8 witness: the splash branch of the theorem applied to the
splash projectile — it transitions to POSTIMPACT. -/
theorem claim_C8_witness :
    (proj_ImpactFinish trivWorld splashProj (fun _ => 0) []).1.state =
      ProjState.POSTIMPACT :=
  ((claim_C8 trivWorld splashProj (fun _ => 0) [] penDroid ⟨0, 0, 0⟩ false).2.1
    (by decide)).1 (by decide)

/-- Claim C9 (amended): the experience guard tests the projectile's
recorded destination, not the object actually damaged — experience is
withheld exactly when the projectile has no live source, its destination
is a feature, or the source's player equals the destination's player. -/
theorem claim_C9 (w : World) (p : Projectile) (d : DamageRec)
    (h : isFeatureRef w p.psDest = true ∨ p.psSource = Option.none ∨
      isFriendlyFire w p = true) :
    (objectDamage w p d).2 = false := by
  simp only [objectDamage, shouldIncreaseExperience]
  rcases h with h | h | h
  · simp [h]
  · simp [h, Option.isSome]
  · simp [h]

/-- Claim C9, counterexample to the victim-based reading: with a live
source and an enemy-droid destination, a splash damage event whose
actual victim is a feature — and one whose actual victim is a droid of
the source's own player — both grant experience. -/
theorem claim_C9_counterexample :
    isFeatureRef c9World (some 3) = true ∧
    (objectDamage c9World c9proj
      ⟨3, 5, 0, WeaponSubClass.WSC_OTHER, 0, false, 0, false⟩).2 = true ∧
    ((c9World.lookupObj 1).map (fun s => s.player) =
      (c9World.lookupObj 4).map (fun v => v.player)) ∧
    (objectDamage c9World c9proj
      ⟨4, 5, 0, WeaponSubClass.WSC_OTHER, 0, false, 0, false⟩).2 = true := by
  refine ⟨by decide, by decide, by decide, by decide⟩

/-- Claim C9 witness: the theorem applied to the projectile whose
destination is the feature. -/
theorem claim_C9_witness :
    (isFeatureRef c9World c9projF.psDest = true ∨ c9projF.psSource = Option.none ∨
      isFriendlyFire c9World c9projF = true) ∧
    (objectDamage c9World c9projF
      ⟨2, 5, 0, WeaponSubClass.WSC_OTHER, 0, false, 0, false⟩).2 = false :=
  ⟨Or.inl (by decide),
   claim_C9 c9World c9projF ⟨2, 5, 0, WeaponSubClass.WSC_OTHER, 0, false, 0, false⟩
     (Or.inl (by decide))⟩

/-- An object meeting any of the four skip conditions is ignored by the
candidate scan, leaving the accumulator untouched. -/
theorem scanCandidate_skip (w : World) (p : Projectile) (stats : WeaponStats)
    (acc : ScanAcc) (o : BaseObject)
    (h : o.oid ∈ p.psDamaged ∨ o.died ≠ 0 ∨
      (o.otype = ObjType.OBJ_FEATURE ∧ o.damageable = false) ∨
      (w.alliance o.player p.player = true ∧ some o.oid ≠ p.psDest)) :
    scanCandidate w p stats acc o = acc := by
  unfold scanCandidate
  by_cases h1 : o.oid ∈ p.psDamaged
  · rw [if_pos h1]
  · rw [if_neg h1]
    by_cases h2 : o.died ≠ 0
    · rw [if_pos h2]
    · rw [if_neg h2]
      by_cases h3 : o.otype = ObjType.OBJ_FEATURE ∧ o.damageable = false
      · rw [if_pos h3]
      · rw [if_neg h3]
        by_cases h4 : w.alliance o.player p.player = true ∧ some o.oid ≠ p.psDest
        · rw [if_pos h4]
        · exact absurd h (by tauto)

/-- The candidate fold never records an object meeting a skip
condition. -/
theorem scanFold_invariant (w : World) (p : Projectile) (stats : WeaponStats) :
    ∀ (l : List BaseObject) (acc : ScanAcc),
      (∀ o, acc.obj = some o → ¬ (o.oid ∈ p.psDamaged ∨ o.died ≠ 0 ∨
        (o.otype = ObjType.OBJ_FEATURE ∧ o.damageable = false) ∨
        (w.alliance o.player p.player = true ∧ some o.oid ≠ p.psDest))) →
      ∀ o, (l.foldl (scanCandidate w p stats) acc).obj = some o →
        ¬ (o.oid ∈ p.psDamaged ∨ o.died ≠ 0 ∨
          (o.otype = ObjType.OBJ_FEATURE ∧ o.damageable = false) ∨
          (w.alliance o.player p.player = true ∧ some o.oid ≠ p.psDest)) := by
  intro l
  induction l with
  | nil => intro acc hacc; exact hacc
  | cons a rest ih =>
    intro acc hacc
    refine ih (scanCandidate w p stats acc a) ?_
    by_cases hb : a.oid ∈ p.psDamaged ∨ a.died ≠ 0 ∨
        (a.otype = ObjType.OBJ_FEATURE ∧ a.damageable = false) ∨
        (w.alliance a.player p.player = true ∧ some a.oid ≠ p.psDest)
    · rw [scanCandidate_skip w p stats acc a hb]
      exact hacc
    · intro o ho
      simp only [scanCandidate] at ho
      repeat' split at ho
      all_goals first
        | exact hacc o ho
        | (have ho2 : some a = some o := ho
           injection ho2 with ho1
           subst ho1
           exact hb)

/-- Claim C10: the in-flight candidate scan skips an object on the
damaged-list, a dead object, a non-damageable feature, or an object
allied to the firing player that is not the current destination — the
accumulator passes through unchanged, before any geometric test — and
consequently the object recorded by the scan satisfies none of those
conditions. -/
theorem claim_C10 (w : World) (p : Projectile) (stats : WeaponStats) (acc : ScanAcc)
    (o : BaseObject)
    (h : o.oid ∈ p.psDamaged ∨ o.died ≠ 0 ∨
      (o.otype = ObjType.OBJ_FEATURE ∧ o.damageable = false) ∨
      (w.alliance o.player p.player = true ∧ some o.oid ≠ p.psDest)) :
    scanCandidate w p stats acc o = acc ∧
    (∀ o', (inFlightScanObjects w p stats).obj = some o' →
      ¬ (o'.oid ∈ p.psDamaged ∨ o'.died ≠ 0 ∨
        (o'.otype = ObjType.OBJ_FEATURE ∧ o'.damageable = false) ∨
        (w.alliance o'.player p.player = true ∧ some o'.oid ≠ p.psDest))) := by
  refine ⟨scanCandidate_skip w p stats acc o h, ?_⟩
  unfold inFlightScanObjects
  refine scanFold_invariant w p stats _ _ ?_
  intro o' ho'
  exact absurd ho' (by simp)

/-- Claim C10 witness: the theorem applied to a dead droid in the
trivial world — the scan accumulator passes through unchanged. -/
theorem claim_C10_witness :
    ({ penDroid with died := 7 }.died ≠ 0) ∧
    scanCandidate trivWorld baseProj baseStats
      ⟨UINT32MAX, projGetSpacetime baseProj, Option.none⟩ { penDroid with died := 7 } =
      ⟨UINT32MAX, projGetSpacetime baseProj, Option.none⟩ :=
  ⟨by decide,
   (claim_C10 trivWorld baseProj baseStats
     ⟨UINT32MAX, projGetSpacetime baseProj, Option.none⟩ { penDroid with died := 7 }
     (Or.inr (Or.inl (by decide)))).1⟩
